import Mathlib

/-!
Verification development for the kubelet-summary-exporter scraper
(src/pkg/scraper/scraper.go).

The Go code is shallowly embedded as follows.

* The kubelet stats types (k8s.io/kubelet stats/v1alpha1, the schema the
  scraper decodes into) become Lean structures in which every optional
  numeric leaf (a Go pointer to uint64 or int64) is an Option, and every
  mandatory field is plain.  The Go field Namespace is spelled nspace here
  because namespace is a Lean keyword.
* prometheus.Desc becomes the Desc structure: fully qualified metric name
  (the result of prometheus.BuildFQName, written out as a literal string),
  help text, and the ordered label schema.  All descriptors of NewScraper
  are reproduced one-for-one.
* An emitted prometheus metric becomes the Metric structure: descriptor,
  value type (counter or gauge), numeric value, and ordered label values.
  Go emits float64 values; we model the uint64-to-float64 conversion by
  f64round (round to nearest, ties to even, 53-bit significand) applied to
  the exact integer, and keep the result as an Int.
* The channel sends of Collect become an ordered List Metric; the method
  Collect itself becomes collectStep, a function of the current error
  counter, the decoder, and the outcome of the HTTP fetch.  The error
  counter (a Go float64 that is only ever incremented by one) is modeled
  as a Nat; exactness of the float64 increment up to 2^53 is taken for
  granted, as no claim exercises counts of that magnitude.  The fatal
  token-read path terminates the process and emits nothing, so it is not
  a constructor of the fetch outcome.
* node.Runtime is a pointer in the Go schema and is dereferenced without a
  nil check by Collect; we model it as a plain structure of two optional
  filesystems, which matches every input on which the Go code does not
  crash.
-/

namespace KubeletSummary

/-- One filesystem statistics group (Fs, Logs, Rootfs, EphemeralStorage,
volume FsStats): five optional uint64 leaves. -/
structure FsStats where
  usedBytes : Option Nat
  capacityBytes : Option Nat
  inodes : Option Nat
  inodesFree : Option Nat
  inodesUsed : Option Nat
  deriving DecidableEq, Repr

/-- CPU statistics group: two optional uint64 leaves. -/
structure CPUStats where
  usageNanoCores : Option Nat
  usageCoreNanoSeconds : Option Nat
  deriving DecidableEq, Repr

/-- Memory statistics group: six optional uint64 leaves. -/
structure MemoryStats where
  availableBytes : Option Nat
  usageBytes : Option Nat
  workingSetBytes : Option Nat
  rssBytes : Option Nat
  pageFaults : Option Nat
  majorPageFaults : Option Nat
  deriving DecidableEq, Repr

/-- Swap statistics group: two optional uint64 leaves. -/
structure SwapStats where
  swapAvailableBytes : Option Nat
  swapUsageBytes : Option Nat
  deriving DecidableEq, Repr

/-- Rlimit statistics group: two optional int64 leaves. -/
structure RlimitStats where
  maxPID : Option Int
  numOfRunningProcesses : Option Int
  deriving DecidableEq, Repr

/-- One network interface: a name and four optional uint64 counters. -/
structure InterfaceStats where
  name : String
  rxBytes : Option Nat
  rxErrors : Option Nat
  txBytes : Option Nat
  txErrors : Option Nat
  deriving DecidableEq, Repr

/-- Network statistics: the list of interfaces the loops iterate over. -/
structure NetworkStats where
  interfaces : List InterfaceStats
  deriving DecidableEq, Repr

/-- Accelerator statistics: identity strings and three mandatory
(non-optional) uint64 leaves. -/
structure AcceleratorStats where
  id : String
  model : String
  make : String
  memoryUsed : Nat
  memoryTotal : Nat
  dutyCycle : Nat
  deriving DecidableEq, Repr

/-- Container statistics, used both for pod containers and for node
system containers. -/
structure ContainerStats where
  name : String
  cpu : Option CPUStats
  memory : Option MemoryStats
  accelerators : List AcceleratorStats
  rootfs : Option FsStats
  logs : Option FsStats
  swap : Option SwapStats
  deriving DecidableEq, Repr

/-- Volume health: one mandatory boolean. -/
structure VolumeHealthStats where
  abnormal : Bool
  deriving DecidableEq, Repr

/-- One volume of a pod: a mandatory embedded FsStats, a name, and an
optional health block. -/
structure VolumeStats where
  fsStats : FsStats
  name : String
  volumeHealthStats : Option VolumeHealthStats
  deriving DecidableEq, Repr

/-- Runtime statistics of the node: image filesystem and container
writeable-layer filesystem. -/
structure RuntimeStats where
  imageFs : Option FsStats
  containerFs : Option FsStats
  deriving DecidableEq, Repr

/-- Pod reference: name and namespace (Go field Namespace). -/
structure PodReference where
  name : String
  nspace : String
  deriving DecidableEq, Repr

/-- Process statistics of a pod: one optional uint64 leaf. -/
structure ProcessStats where
  processCount : Option Nat
  deriving DecidableEq, Repr

/-- Node-scope statistics. -/
structure NodeStats where
  nodeName : String
  systemContainers : List ContainerStats
  cpu : Option CPUStats
  memory : Option MemoryStats
  network : Option NetworkStats
  fs : Option FsStats
  runtime : RuntimeStats
  rlimit : Option RlimitStats
  swap : Option SwapStats
  deriving DecidableEq, Repr

/-- Pod-scope statistics. -/
structure PodStats where
  podRef : PodReference
  containers : List ContainerStats
  cpu : Option CPUStats
  memory : Option MemoryStats
  network : Option NetworkStats
  volumeStats : List VolumeStats
  ephemeralStorage : Option FsStats
  processStats : Option ProcessStats
  swap : Option SwapStats
  deriving DecidableEq, Repr

/-- The decoded stats document: the node and the ordered pods. -/
structure Summary where
  node : NodeStats
  pods : List PodStats
  deriving DecidableEq, Repr

/-- A metric descriptor, as built by prometheus.NewDesc in NewScraper:
fully qualified name, help text, ordered label schema. -/
structure Desc where
  name : String
  help : String
  labels : List String
  deriving DecidableEq, Repr

/-- The prometheus value type passed to MustNewConstMetric. -/
inductive ValueType where
  | counter
  | gauge
  deriving DecidableEq, Repr

/-- One emitted observation: descriptor, value type, numeric value
(the float64 the Go code sends, kept as the exact integer it rounds to),
and the ordered label values. -/
structure Metric where
  desc : Desc
  vtype : ValueType
  value : Int
  labelValues : List String
  deriving DecidableEq, Repr

/-- Bit length of a value, computed with a fuel bound of 64 divisions:
exact for every value a uint64 leaf can hold. -/
def bitLenAux : Nat → Nat → Nat
  | 0, _ => 0
  | fuel + 1, n => if n = 0 then 0 else bitLenAux fuel (n / 2) + 1

/-- Bit length of a 64-bit value. -/
def bitLen (n : Nat) : Nat := bitLenAux 64 n

/-- Round-to-nearest-even conversion of a nonnegative integer to a
binary64 floating-point value, returned as the exact integer the float
denotes.  Values up to 2^53 convert exactly; larger values round to a
multiple of the unit in the last place of their binade (2^(bitLen-53)). -/
def f64round (n : Nat) : Nat :=
  if n ≤ 2 ^ 53 then n
  else
    let e := bitLen n - 53
    let q := n / 2 ^ e
    let r := n % 2 ^ e
    let half := 2 ^ e / 2
    if r < half then q * 2 ^ e
    else if half < r then (q + 1) * 2 ^ e
    else if q % 2 = 0 then q * 2 ^ e else (q + 1) * 2 ^ e

/-- float64 conversion of a signed 64-bit integer (the Rlimit leaves). -/
def f64roundInt (i : Int) : Int :=
  if 0 ≤ i then Int.ofNat (f64round i.toNat) else -Int.ofNat (f64round (-i).toNat)

/-!
The descriptor catalog of NewScraper, in source order.  Metric names are
the results of prometheus.BuildFQName written out; help strings follow
the source with apostrophes elided.
-/
def containerRootFsUsedBytes : Desc :=
  ⟨"kubelet_summary_container_fs_usage_bytes", "Disk used in bytes",
   ["node", "namespace", "pod", "container"]⟩

def containerRootFsAvailableBytes : Desc :=
  ⟨"kubelet_summary_container_fs_limit_bytes", "Capacity of container disk",
   ["node", "namespace", "pod", "container"]⟩

def containerRootFsInodesFree : Desc :=
  ⟨"kubelet_summary_container_fs_inodes_free", "Number of inodes free in container fs",
   ["node", "namespace", "pod", "container"]⟩

def containerRootFsInodes : Desc :=
  ⟨"kubelet_summary_container_fs_inodes", "Number of inodes in container fs",
   ["node", "namespace", "pod", "container"]⟩

def containerRootFsInodesUsed : Desc :=
  ⟨"kubelet_summary_container_fs_inodes_used", "Number of inodes used in container fs",
   ["node", "namespace", "pod", "container"]⟩

def containerLogsUsedBytes : Desc :=
  ⟨"kubelet_summary_container_logs_usage_bytes", "Logs space used in bytes",
   ["node", "namespace", "pod", "container"]⟩

def containerLogsAvailableBytes : Desc :=
  ⟨"kubelet_summary_container_logs_limit_bytes", "Capacity of container log space",
   ["node", "namespace", "pod", "container"]⟩

def containerLogsInodesFree : Desc :=
  ⟨"kubelet_summary_container_logs_inodes_free", "Number of inodes free in container log space",
   ["node", "namespace", "pod", "container"]⟩

def containerLogsInodes : Desc :=
  ⟨"kubelet_summary_container_logs_inodes", "Number of inodes in container log space",
   ["node", "namespace", "pod", "container"]⟩

def containerLogsInodesUsed : Desc :=
  ⟨"kubelet_summary_container_logs_inodes_used", "Number of inodes used in container log space",
   ["node", "namespace", "pod", "container"]⟩

def containerCPUUsageNanoCores : Desc :=
  ⟨"kubelet_summary_container_cpu_usage_nano_cores", "CPU usage in nanocores",
   ["node", "namespace", "pod", "container"]⟩

def containerCPUUsageCoreNanoSeconds : Desc :=
  ⟨"kubelet_summary_container_cpu_usage_core_nano_seconds", "CPU nanoseconds used",
   ["node", "namespace", "pod", "container"]⟩

def containerMemoryAvailableBytes : Desc :=
  ⟨"kubelet_summary_container_memory_available_bytes", "available bytes in container memory",
   ["node", "namespace", "pod", "container"]⟩

def containerMemoryUsageBytes : Desc :=
  ⟨"kubelet_summary_container_memory_usage_bytes", "Used bytes in container memory",
   ["node", "namespace", "pod", "container"]⟩

def containerMemoryWorkingSetBytes : Desc :=
  ⟨"kubelet_summary_container_memory_working_set_bytes", "working set bytes in container memory",
   ["node", "namespace", "pod", "container"]⟩

def containerMemoryRSSBytes : Desc :=
  ⟨"kubelet_summary_container_memory_rss_bytes", "rss bytes in container memory",
   ["node", "namespace", "pod", "container"]⟩

def containerMemoryPageFaults : Desc :=
  ⟨"kubelet_summary_container_memory_page_faults", "Page faults in container memory",
   ["node", "namespace", "pod", "container"]⟩

def containerMemoryMajorPageFaults : Desc :=
  ⟨"kubelet_summary_container_memory_major_page_faults", "Major page faults in container memory",
   ["node", "namespace", "pod", "container"]⟩

def containerSwapAvailableBytes : Desc :=
  ⟨"kubelet_summary_container_swap_available_bytes", "Available bytes in containers swap storage",
   ["node", "namespace", "pod", "container"]⟩

def containerSwapUsageBytes : Desc :=
  ⟨"kubelet_summary_container_swap_usage_bytes", "Used bytes in containers swap storage",
   ["node", "namespace", "pod", "container"]⟩

def containerAcceleratorMemoryTotal : Desc :=
  ⟨"kubelet_summary_container_accelerator_memory_total", "Total memory in containers accelerator",
   ["node", "namespace", "pod", "container", "id", "model", "make"]⟩

def containerAcceleratorMemoryUsed : Desc :=
  ⟨"kubelet_summary_container_accelerator_memory_used", "Memory used in containers accelerator",
   ["node", "namespace", "pod", "container", "id", "model", "make"]⟩

def containerAcceleratorDutyCycle : Desc :=
  ⟨"kubelet_summary_container_accelerator_duty_cycle",
   "Percentage of time over which accelerator was allocated",
   ["node", "namespace", "pod", "container", "id", "model", "make"]⟩

def podCPUUsageNanoCores : Desc :=
  ⟨"kubelet_summary_pod_cpu_usage_nano_cores", "CPU usage in nanocores",
   ["node", "namespace", "pod"]⟩

def podCPUUsageCoreNanoSeconds : Desc :=
  ⟨"kubelet_summary_pod_cpu_usage_core_nano_seconds", "CPU nanoseconds used",
   ["node", "namespace", "pod"]⟩

def podMemoryAvailableBytes : Desc :=
  ⟨"kubelet_summary_pod_memory_available_bytes", "available bytes in pod memory",
   ["node", "namespace", "pod"]⟩

def podMemoryUsageBytes : Desc :=
  ⟨"kubelet_summary_pod_memory_usage_bytes", "Used bytes in pod memory",
   ["node", "namespace", "pod"]⟩

def podMemoryWorkingSetBytes : Desc :=
  ⟨"kubelet_summary_pod_memory_working_set_bytes", "working set bytes in pod memory",
   ["node", "namespace", "pod"]⟩

def podMemoryRSSBytes : Desc :=
  ⟨"kubelet_summary_pod_memory_rss_bytes", "rss bytes in pod memory",
   ["node", "namespace", "pod"]⟩

def podMemoryPageFaults : Desc :=
  ⟨"kubelet_summary_pod_memory_page_faults", "Page faults in pod memory",
   ["node", "namespace", "pod"]⟩

def podMemoryMajorPageFaults : Desc :=
  ⟨"kubelet_summary_pod_memory_major_page_faults", "Major page faults in pod memory",
   ["node", "namespace", "pod"]⟩

def podSwapAvailableBytes : Desc :=
  ⟨"kubelet_summary_pod_swap_available_bytes", "Available bytes in pods swap storage",
   ["node", "namespace", "pod"]⟩

def podSwapUsageBytes : Desc :=
  ⟨"kubelet_summary_pod_swap_usage_bytes", "Used bytes in pods swap storage",
   ["node", "namespace", "pod"]⟩

def podEphemeralStorageUsedBytes : Desc :=
  ⟨"kubelet_summary_pod_ephemeral_storage_usage_bytes",
   "Amount of bytes used in pods ephemeral storage",
   ["node", "namespace", "pod"]⟩

def podEphemeralStorageAvailableBytes : Desc :=
  ⟨"kubelet_summary_pod_ephemeral_storage_limit_bytes",
   "Capacity of pods ephemeral storage in bytes",
   ["node", "namespace", "pod"]⟩

def podEphemeralStorageInodesFree : Desc :=
  ⟨"kubelet_summary_pod_ephemeral_storage_inodes_free",
   "Number of inodes free in pods ephemeral storage",
   ["node", "namespace", "pod"]⟩

def podEphemeralStorageInodes : Desc :=
  ⟨"kubelet_summary_pod_ephemeral_storage_inodes",
   "Number of inodes in pods ephemeral storage",
   ["node", "namespace", "pod"]⟩

def podEphemeralStorageInodesUsed : Desc :=
  ⟨"kubelet_summary_pod_ephemeral_storage_inodes_used",
   "Number of inodes used in pods ephemeral storage",
   ["node", "namespace", "pod"]⟩

def podVolumeUsedBytes : Desc :=
  ⟨"kubelet_summary_pod_volume_usage_bytes", "Pod volume used in bytes",
   ["node", "namespace", "pod", "volume_name"]⟩

def podVolumeAvailableBytes : Desc :=
  ⟨"kubelet_summary_pod_volume_limit_bytes", "Capacity of pod volume in bytes",
   ["node", "namespace", "pod", "volume_name"]⟩

def podVolumeInodesFree : Desc :=
  ⟨"kubelet_summary_pod_volume_inodes_free", "Number of inodes free in pod volume",
   ["node", "namespace", "pod", "volume_name"]⟩

def podVolumeInodes : Desc :=
  ⟨"kubelet_summary_pod_volume_inodes", "Number of inodes in pod volume",
   ["node", "namespace", "pod", "volume_name"]⟩

def podVolumeInodesUsed : Desc :=
  ⟨"kubelet_summary_pod_volume_inodes_used", "Number of inodes used in pod volume",
   ["node", "namespace", "pod", "volume_name"]⟩

def podVolumeHealthStatus : Desc :=
  ⟨"kubelet_summary_pod_volume_health_status", "Health status of pod volume",
   ["node", "namespace", "pod", "volume_name"]⟩

def podInterfaceRxBytes : Desc :=
  ⟨"kubelet_summary_pod_interface_rx_bytes", "Cumulative count of receive bytes",
   ["node", "namespace", "pod", "name"]⟩

def podInterfaceRxErrors : Desc :=
  ⟨"kubelet_summary_pod_interface_rx_errors", "Cumulative count of receive errors",
   ["node", "namespace", "pod", "name"]⟩

def podInterfaceTxBytes : Desc :=
  ⟨"kubelet_summary_pod_interface_tx_bytes", "Cumulative count of transmit bytes",
   ["node", "namespace", "pod", "name"]⟩

def podInterfaceTxErrors : Desc :=
  ⟨"kubelet_summary_pod_interface_tx_errors", "Cumulative count of transmit errors",
   ["node", "namespace", "pod", "name"]⟩

def podProcessCount : Desc :=
  ⟨"kubelet_summary_pod_process_count", "Count of process in pod",
   ["node", "namespace", "pod"]⟩

def nodeFsUsedBytes : Desc :=
  ⟨"kubelet_summary_node_fs_usage_bytes", "Disk used in bytes", ["node"]⟩

def nodeFsAvailableBytes : Desc :=
  ⟨"kubelet_summary_node_fs_limit_bytes", "Capacity of container disk", ["node"]⟩

def nodeFsInodesFree : Desc :=
  ⟨"kubelet_summary_node_fs_inodes_free", "Number of inodes free in node fs", ["node"]⟩

def nodeFsInodes : Desc :=
  ⟨"kubelet_summary_node_fs_inodes", "Number of inodes in node fs", ["node"]⟩

def nodeFsInodesUsed : Desc :=
  ⟨"kubelet_summary_node_fs_inodes_used", "Number of inodes used in node fs", ["node"]⟩

def nodeRuntimeImageFsUsedBytes : Desc :=
  ⟨"kubelet_summary_node_runtime_image_fs_usage_bytes",
   "Usage of node runtime image fs in bytes", ["node"]⟩

def nodeRuntimeImageFsAvailableBytes : Desc :=
  ⟨"kubelet_summary_node_runtime_image_fs_limit_bytes",
   "Capacity of node runtime image fs in bytes", ["node"]⟩

def nodeRuntimeImageFsInodesFree : Desc :=
  ⟨"kubelet_summary_node_runtime_image_fs_inodes_free",
   "Inodes free in nodes runtime image fs", ["node"]⟩

def nodeRuntimeImageFsInodes : Desc :=
  ⟨"kubelet_summary_node_runtime_image_fs_inodes",
   "Inodes in nodes runtime image fs", ["node"]⟩

def nodeRuntimeImageFsInodesUsed : Desc :=
  ⟨"kubelet_summary_node_runtime_image_fs_inodes_used",
   "Inodes used in nodes runtime image fs", ["node"]⟩

def nodeRuntimeContainerFsUsedBytes : Desc :=
  ⟨"kubelet_summary_node_runtime_container_fs_usage_bytes",
   "Usage of node runtime containers writeable layer in bytes", ["node"]⟩

def nodeRuntimeContainerFsAvailableBytes : Desc :=
  ⟨"kubelet_summary_node_runtime_container_fs_limit_bytes",
   "Capacity of node runtime containers writeable layer in bytes", ["node"]⟩

def nodeRuntimeContainerFsInodesFree : Desc :=
  ⟨"kubelet_summary_node_runtime_container_fs_inodes_free",
   "Count of free Inodes in node runtime container fs", ["node"]⟩

def nodeRuntimeContainerFsInodes : Desc :=
  ⟨"kubelet_summary_node_runtime_container_fs_inodes",
   "Total inodes in nodes runtime container fs", ["node"]⟩

def nodeRuntimeContainerFsInodesUsed : Desc :=
  ⟨"kubelet_summary_node_runtime_container_fs_inodes_used",
   "Count of inodes being used", ["node"]⟩

def nodeCPUUsageNanoCores : Desc :=
  ⟨"kubelet_summary_node_cpu_usage_nano_cores", "CPU usage in nanocores", ["node"]⟩

def nodeCPUUsageCoreNanoSeconds : Desc :=
  ⟨"kubelet_summary_node_cpu_usage_core_nano_seconds", "CPU nanoseconds used", ["node"]⟩

def nodeMemoryAvailableBytes : Desc :=
  ⟨"kubelet_summary_node_memory_available_bytes", "available bytes in node memory", ["node"]⟩

def nodeMemoryUsageBytes : Desc :=
  ⟨"kubelet_summary_node_memory_usage_bytes", "Used bytes in node memory", ["node"]⟩

def nodeMemoryWorkingSetBytes : Desc :=
  ⟨"kubelet_summary_node_memory_working_set_bytes", "working set bytes in node memory", ["node"]⟩

def nodeMemoryRSSBytes : Desc :=
  ⟨"kubelet_summary_node_memory_rss_bytes", "rss bytes in node memory", ["node"]⟩

def nodeMemoryPageFaults : Desc :=
  ⟨"kubelet_summary_node_memory_page_faults", "Page faults in node memory", ["node"]⟩

def nodeMemoryMajorPageFaults : Desc :=
  ⟨"kubelet_summary_node_memory_major_page_faults", "Major page faults in node memory", ["node"]⟩

def nodeSwapAvailableBytes : Desc :=
  ⟨"kubelet_summary_node_swap_available_bytes", "Available bytes in nodes swap storage", ["node"]⟩

def nodeSwapUsageBytes : Desc :=
  ⟨"kubelet_summary_node_swap_usage_bytes", "Used bytes in nodes swap storage", ["node"]⟩

def nodeRLimitMaxPID : Desc :=
  ⟨"kubelet_summary_node_rlimit_max_pid", "Maximum PID", ["node"]⟩

def nodeRLimitNumOfRunningProcess : Desc :=
  ⟨"kubelet_summary_node_rlimit_num_of_running_process",
   "Number of running process in node", ["node"]⟩

def nodeInterfaceRxBytes : Desc :=
  ⟨"kubelet_summary_node_interface_rx_bytes", "Cumulative count of receive bytes",
   ["node", "name"]⟩

def nodeInterfaceRxErrors : Desc :=
  ⟨"kubelet_summary_node_interface_rx_errors", "Cumulative count of receive errors",
   ["node", "name"]⟩

def nodeInterfaceTxBytes : Desc :=
  ⟨"kubelet_summary_node_interface_tx_bytes", "Cumulative count of transmit bytes",
   ["node", "name"]⟩

def nodeInterfaceTxErrors : Desc :=
  ⟨"kubelet_summary_node_interface_tx_errors", "Cumulative count of transmit errors",
   ["node", "name"]⟩

def nodeSystemContainerRootFsUsedBytes : Desc :=
  ⟨"kubelet_summary_node_system_container_fs_usage_bytes", "Disk used in bytes",
   ["node", "container"]⟩

def nodeSystemContainerRootFsAvailableBytes : Desc :=
  ⟨"kubelet_summary_node_system_container_fs_limit_bytes",
   "Capacity of nodeSystemContainer disk", ["node", "container"]⟩

def nodeSystemContainerRootFsInodesFree : Desc :=
  ⟨"kubelet_summary_node_system_container_fs_inodes_free",
   "Capacity of nodeSystemContainer disk", ["node", "container"]⟩

def nodeSystemContainerRootFsInodes : Desc :=
  ⟨"kubelet_summary_node_system_container_fs_inodes",
   "Capacity of nodeSystemContainer disk", ["node", "container"]⟩

def nodeSystemContainerRootFsInodesUsed : Desc :=
  ⟨"kubelet_summary_node_system_container_fs_inodes_used",
   "Capacity of nodeSystemContainer disk", ["node", "container"]⟩

def nodeSystemContainerLogsUsedBytes : Desc :=
  ⟨"kubelet_summary_node_system_container_logs_usage_bytes", "Disk used in bytes",
   ["node", "container"]⟩

def nodeSystemContainerLogsAvailableBytes : Desc :=
  ⟨"kubelet_summary_node_system_container_logs_limit_bytes",
   "Capacity of nodeSystemContainer disk", ["node", "container"]⟩

def nodeSystemContainerLogsInodesFree : Desc :=
  ⟨"kubelet_summary_node_system_container_logs_inodes_free",
   "Capacity of nodeSystemContainer disk", ["node", "container"]⟩

def nodeSystemContainerLogsInodes : Desc :=
  ⟨"kubelet_summary_node_system_container_logs_inodes",
   "Capacity of nodeSystemContainer disk", ["node", "container"]⟩

def nodeSystemContainerLogsInodesUsed : Desc :=
  ⟨"kubelet_summary_node_system_container_logs_inodes_used",
   "Capacity of nodeSystemContainer disk", ["node", "container"]⟩

def nodeSystemContainerCPUUsageNanoCores : Desc :=
  ⟨"kubelet_summary_node_system_container_cpu_usage_nano_cores",
   "CPU usage in nanocores", ["node", "container"]⟩

def nodeSystemContainerCPUUsageCoreNanoSeconds : Desc :=
  ⟨"kubelet_summary_node_system_container_cpu_usage_core_nano_seconds",
   "CPU usage in core nanoseconds", ["node", "container"]⟩

def nodeSystemContainerMemoryAvailableBytes : Desc :=
  ⟨"kubelet_summary_node_system_container_memory_available_bytes",
   "available bytes in nodeSystemContainer memory", ["node", "container"]⟩

def nodeSystemContainerMemoryUsageBytes : Desc :=
  ⟨"kubelet_summary_node_system_container_memory_usage_bytes",
   "Used bytes in nodeSystemContainer memory", ["node", "container"]⟩

def nodeSystemContainerMemoryWorkingSetBytes : Desc :=
  ⟨"kubelet_summary_node_system_container_memory_working_set_bytes",
   "working set bytes in nodeSystemContainer memory", ["node", "container"]⟩

def nodeSystemContainerMemoryRSSBytes : Desc :=
  ⟨"kubelet_summary_node_system_container_memory_rss_bytes",
   "rss bytes in nodeSystemContainer memory", ["node", "container"]⟩

def nodeSystemContainerMemoryPageFaults : Desc :=
  ⟨"kubelet_summary_node_system_container_memory_page_faults",
   "Page faults in nodeSystemContainer memory", ["node", "container"]⟩

def nodeSystemContainerMemoryMajorPageFaults : Desc :=
  ⟨"kubelet_summary_node_system_container_memory_major_page_faults",
   "Major page faults in nodeSystemContainer memory", ["node", "container"]⟩

def nodeSystemContainerSwapAvailableBytes : Desc :=
  ⟨"kubelet_summary_node_system_container_swap_available_bytes",
   "Available bytes in nodeSystemContainers swap storage", ["node", "container"]⟩

def nodeSystemContainerSwapUsageBytes : Desc :=
  ⟨"kubelet_summary_node_system_container_swap_usage_bytes",
   "Used bytes in nodeSystemContainers swap storage", ["node", "container"]⟩

def nodeSystemContainerAcceleratorMemoryTotal : Desc :=
  ⟨"kubelet_summary_node_system_container_accelerator_memory_total",
   "Total memory in nodeSystemContainers accelerator",
   ["node", "container", "id", "model", "make"]⟩

def nodeSystemContainerAcceleratorMemoryUsed : Desc :=
  ⟨"kubelet_summary_node_system_container_accelerator_memory_used",
   "Memory used in nodeSystemContainers accelerator",
   ["node", "container", "id", "model", "make"]⟩

def nodeSystemContainerAcceleratorDutyCycle : Desc :=
  ⟨"kubelet_summary_node_system_container_accelerator_duty_cycle",
   "Percentage of time over which accelerator was allocated",
   ["node", "container", "id", "model", "make"]⟩

/-- The error counter descriptor, labeled by failure class. -/
def errorsDesc : Desc :=
  ⟨"kubelet_summary_exporter_errors", "Errors scraping kubelet stats summary", ["type"]⟩

/-- The generic emit-if-present primitive of the scraper (pushMetrics in
the source): send one gauge observation when the optional leaf is
present, nothing when it is absent. -/
def pushMetrics (d : Desc) (value : Option Nat) (labelValues : List String) : List Metric :=
  match value with
  | some v => [⟨d, ValueType.gauge, Int.ofNat (f64round v), labelValues⟩]
  | none => []

/-- The five pushMetrics calls every filesystem group performs, in the
source order: UsedBytes, CapacityBytes, Inodes, InodesFree, InodesUsed.
The five descriptors are passed in that order at each call site. -/
def mapFs5 (dUsed dCap dInodes dInodesFree dInodesUsed : Desc)
    (fs : FsStats) (ls : List String) : List Metric :=
  pushMetrics dUsed fs.usedBytes ls ++
  pushMetrics dCap fs.capacityBytes ls ++
  pushMetrics dInodes fs.inodes ls ++
  pushMetrics dInodesFree fs.inodesFree ls ++
  pushMetrics dInodesUsed fs.inodesUsed ls

/-- The two pushMetrics calls of a CPU group: UsageNanoCores then
UsageCoreNanoSeconds. -/
def mapCpu2 (dNano dCore : Desc) (c : CPUStats) (ls : List String) : List Metric :=
  pushMetrics dNano c.usageNanoCores ls ++
  pushMetrics dCore c.usageCoreNanoSeconds ls

/-- The five pushMetrics calls of the memory group at node, pod, and
pod-container scope: AvailableBytes, UsageBytes, WorkingSetBytes,
RSSBytes, PageFaults.  The source does not push MajorPageFaults at
these scopes. -/
def mapMem5 (dAvail dUsage dWs dRss dPf : Desc) (m : MemoryStats) (ls : List String) :
    List Metric :=
  pushMetrics dAvail m.availableBytes ls ++
  pushMetrics dUsage m.usageBytes ls ++
  pushMetrics dWs m.workingSetBytes ls ++
  pushMetrics dRss m.rssBytes ls ++
  pushMetrics dPf m.pageFaults ls

/-- The six pushMetrics calls of the system-container memory group,
which also pushes MajorPageFaults. -/
def mapMem6 (dAvail dUsage dWs dRss dPf dMajPf : Desc) (m : MemoryStats) (ls : List String) :
    List Metric :=
  pushMetrics dAvail m.availableBytes ls ++
  pushMetrics dUsage m.usageBytes ls ++
  pushMetrics dWs m.workingSetBytes ls ++
  pushMetrics dRss m.rssBytes ls ++
  pushMetrics dPf m.pageFaults ls ++
  pushMetrics dMajPf m.majorPageFaults ls

/-- The two pushMetrics calls of a swap group: SwapAvailableBytes then
SwapUsageBytes. -/
def mapSwap2 (dAvail dUsage : Desc) (s : SwapStats) (ls : List String) : List Metric :=
  pushMetrics dAvail s.swapAvailableBytes ls ++
  pushMetrics dUsage s.swapUsageBytes ls

/-- The four pushMetrics calls per network interface: RxBytes, RxErrors,
TxBytes, TxErrors; the interface name is appended to the base labels. -/
def mapIface4 (dRx dRxE dTx dTxE : Desc) (i : InterfaceStats) (base : List String) :
    List Metric :=
  pushMetrics dRx i.rxBytes (base ++ [i.name]) ++
  pushMetrics dRxE i.rxErrors (base ++ [i.name]) ++
  pushMetrics dTx i.txBytes (base ++ [i.name]) ++
  pushMetrics dTxE i.txErrors (base ++ [i.name])

/-- The three pushMetrics calls per accelerator: MemoryUsed,
MemoryTotal, DutyCycle.  Accelerator fields are mandatory, so the
source takes their addresses and all three are always pushed; the
identity labels id, model, make are appended to the base labels. -/
def mapAccel3 (dUsed dTotal dDuty : Desc) (a : AcceleratorStats) (base : List String) :
    List Metric :=
  pushMetrics dUsed (some a.memoryUsed) (base ++ [a.id, a.model, a.make]) ++
  pushMetrics dTotal (some a.memoryTotal) (base ++ [a.id, a.model, a.make]) ++
  pushMetrics dDuty (some a.dutyCycle) (base ++ [a.id, a.model, a.make])

/-- The Rlimit block of Collect: two direct MustNewConstMetric sends of
the float64 conversions of the int64 leaves, when present. -/
def mapRlimit (r : RlimitStats) (ls : List String) : List Metric :=
  (match r.maxPID with
   | some v => [⟨nodeRLimitMaxPID, ValueType.gauge, f64roundInt v, ls⟩]
   | none => []) ++
  (match r.numOfRunningProcesses with
   | some v => [⟨nodeRLimitNumOfRunningProcess, ValueType.gauge, f64roundInt v, ls⟩]
   | none => [])

/-- The body of the system-containers loop of Collect (the first loop
the method runs): Rootfs, Logs, CPU, Memory (six leaves), Swap,
Accelerators, labeled (node, container). -/
def mapSystemContainer (nodeName : String) (sc : ContainerStats) : List Metric :=
  sc.rootfs.elim [] (fun fs =>
    mapFs5 nodeSystemContainerRootFsUsedBytes nodeSystemContainerRootFsAvailableBytes
      nodeSystemContainerRootFsInodes nodeSystemContainerRootFsInodesFree
      nodeSystemContainerRootFsInodesUsed fs [nodeName, sc.name]) ++
  sc.logs.elim [] (fun fs =>
    mapFs5 nodeSystemContainerLogsUsedBytes nodeSystemContainerLogsAvailableBytes
      nodeSystemContainerLogsInodes nodeSystemContainerLogsInodesFree
      nodeSystemContainerLogsInodesUsed fs [nodeName, sc.name]) ++
  sc.cpu.elim [] (fun c =>
    mapCpu2 nodeSystemContainerCPUUsageNanoCores nodeSystemContainerCPUUsageCoreNanoSeconds
      c [nodeName, sc.name]) ++
  sc.memory.elim [] (fun m =>
    mapMem6 nodeSystemContainerMemoryAvailableBytes nodeSystemContainerMemoryUsageBytes
      nodeSystemContainerMemoryWorkingSetBytes nodeSystemContainerMemoryRSSBytes
      nodeSystemContainerMemoryPageFaults nodeSystemContainerMemoryMajorPageFaults
      m [nodeName, sc.name]) ++
  sc.swap.elim [] (fun sw =>
    mapSwap2 nodeSystemContainerSwapAvailableBytes nodeSystemContainerSwapUsageBytes
      sw [nodeName, sc.name]) ++
  sc.accelerators.flatMap (fun a =>
    mapAccel3 nodeSystemContainerAcceleratorMemoryUsed nodeSystemContainerAcceleratorMemoryTotal
      nodeSystemContainerAcceleratorDutyCycle a [nodeName, sc.name])

/-- The node-scope sections of Collect that follow the system-containers
loop: Fs, Runtime.ImageFs, Runtime.ContainerFs, CPU, Memory (five
leaves), Swap, Rlimit, Network interfaces, labeled (node). -/
def mapNodeAfterSystemContainers (node : NodeStats) : List Metric :=
  node.fs.elim [] (fun fs =>
    mapFs5 nodeFsUsedBytes nodeFsAvailableBytes nodeFsInodes nodeFsInodesFree
      nodeFsInodesUsed fs [node.nodeName]) ++
  node.runtime.imageFs.elim [] (fun fs =>
    mapFs5 nodeRuntimeImageFsUsedBytes nodeRuntimeImageFsAvailableBytes
      nodeRuntimeImageFsInodes nodeRuntimeImageFsInodesFree
      nodeRuntimeImageFsInodesUsed fs [node.nodeName]) ++
  node.runtime.containerFs.elim [] (fun fs =>
    mapFs5 nodeRuntimeContainerFsUsedBytes nodeRuntimeContainerFsAvailableBytes
      nodeRuntimeContainerFsInodes nodeRuntimeContainerFsInodesFree
      nodeRuntimeContainerFsInodesUsed fs [node.nodeName]) ++
  node.cpu.elim [] (fun c =>
    mapCpu2 nodeCPUUsageNanoCores nodeCPUUsageCoreNanoSeconds c [node.nodeName]) ++
  node.memory.elim [] (fun m =>
    mapMem5 nodeMemoryAvailableBytes nodeMemoryUsageBytes nodeMemoryWorkingSetBytes
      nodeMemoryRSSBytes nodeMemoryPageFaults m [node.nodeName]) ++
  node.swap.elim [] (fun sw =>
    mapSwap2 nodeSwapAvailableBytes nodeSwapUsageBytes sw [node.nodeName]) ++
  node.rlimit.elim [] (fun r => mapRlimit r [node.nodeName]) ++
  node.network.elim [] (fun nw =>
    nw.interfaces.flatMap (fun i =>
      mapIface4 nodeInterfaceRxBytes nodeInterfaceRxErrors nodeInterfaceTxBytes
        nodeInterfaceTxErrors i [node.nodeName]))

/-- The body of the volume loop of a pod: the five embedded FsStats
leaves, then the health gauge (1 when abnormal, 0 otherwise) when the
health block is present, labeled (node, namespace, pod, volume name). -/
def mapVolume (nodeName nspace podName : String) (v : VolumeStats) : List Metric :=
  mapFs5 podVolumeUsedBytes podVolumeAvailableBytes podVolumeInodes podVolumeInodesFree
    podVolumeInodesUsed v.fsStats [nodeName, nspace, podName, v.name] ++
  v.volumeHealthStats.elim [] (fun h =>
    pushMetrics podVolumeHealthStatus (some (if h.abnormal then 1 else 0))
      [nodeName, nspace, podName, v.name])

/-- The body of the containers loop of a pod: Rootfs, Logs, CPU, Memory
(five leaves), Swap, Accelerators.  All groups are labeled
(node, namespace, pod, container) except the accelerator pushes, whose
call sites pass (node, pod, namespace, container, id, model, make) --
the pod name and the namespace in swapped positions relative to the
declared schema, exactly as in the source. -/
def mapPodContainer (nodeName nspace podName : String) (c : ContainerStats) : List Metric :=
  c.rootfs.elim [] (fun fs =>
    mapFs5 containerRootFsUsedBytes containerRootFsAvailableBytes containerRootFsInodes
      containerRootFsInodesFree containerRootFsInodesUsed fs
      [nodeName, nspace, podName, c.name]) ++
  c.logs.elim [] (fun fs =>
    mapFs5 containerLogsUsedBytes containerLogsAvailableBytes containerLogsInodes
      containerLogsInodesFree containerLogsInodesUsed fs
      [nodeName, nspace, podName, c.name]) ++
  c.cpu.elim [] (fun cp =>
    mapCpu2 containerCPUUsageNanoCores containerCPUUsageCoreNanoSeconds cp
      [nodeName, nspace, podName, c.name]) ++
  c.memory.elim [] (fun m =>
    mapMem5 containerMemoryAvailableBytes containerMemoryUsageBytes
      containerMemoryWorkingSetBytes containerMemoryRSSBytes containerMemoryPageFaults
      m [nodeName, nspace, podName, c.name]) ++
  c.swap.elim [] (fun sw =>
    mapSwap2 containerSwapAvailableBytes containerSwapUsageBytes sw
      [nodeName, nspace, podName, c.name]) ++
  c.accelerators.flatMap (fun a =>
    mapAccel3 containerAcceleratorMemoryUsed containerAcceleratorMemoryTotal
      containerAcceleratorDutyCycle a [nodeName, podName, nspace, c.name])

/-- The body of the pods loop of Collect: CPU, Memory (five leaves),
Swap, EphemeralStorage, ProcessStats, VolumeStats, Network interfaces,
Containers -- in the source order. -/
def mapPod (nodeName : String) (pod : PodStats) : List Metric :=
  pod.cpu.elim [] (fun c =>
    mapCpu2 podCPUUsageNanoCores podCPUUsageCoreNanoSeconds c
      [nodeName, pod.podRef.nspace, pod.podRef.name]) ++
  pod.memory.elim [] (fun m =>
    mapMem5 podMemoryAvailableBytes podMemoryUsageBytes podMemoryWorkingSetBytes
      podMemoryRSSBytes podMemoryPageFaults m
      [nodeName, pod.podRef.nspace, pod.podRef.name]) ++
  pod.swap.elim [] (fun sw =>
    mapSwap2 podSwapAvailableBytes podSwapUsageBytes sw
      [nodeName, pod.podRef.nspace, pod.podRef.name]) ++
  pod.ephemeralStorage.elim [] (fun fs =>
    mapFs5 podEphemeralStorageUsedBytes podEphemeralStorageAvailableBytes
      podEphemeralStorageInodes podEphemeralStorageInodesFree podEphemeralStorageInodesUsed
      fs [nodeName, pod.podRef.nspace, pod.podRef.name]) ++
  pod.processStats.elim [] (fun ps =>
    pushMetrics podProcessCount ps.processCount
      [nodeName, pod.podRef.nspace, pod.podRef.name]) ++
  pod.volumeStats.flatMap (mapVolume nodeName pod.podRef.nspace pod.podRef.name) ++
  pod.network.elim [] (fun nw =>
    nw.interfaces.flatMap (fun i =>
      mapIface4 podInterfaceRxBytes podInterfaceRxErrors podInterfaceTxBytes
        podInterfaceTxErrors i [nodeName, pod.podRef.nspace, pod.podRef.name])) ++
  pod.containers.flatMap (mapPodContainer nodeName pod.podRef.nspace pod.podRef.name)

/-- The full Mapper: the observation stream Collect produces from a
decoded Summary, in emission order.  The source walks the node system
containers first, then the remaining node-scope groups, then the pods
in document order. -/
def mapSummary (s : Summary) : List Metric :=
  s.node.systemContainers.flatMap (mapSystemContainer s.node.nodeName) ++
  mapNodeAfterSystemContainers s.node ++
  s.pods.flatMap (mapPod s.node.nodeName)

/-- The error-counter observation Collect sends on a failed pull. -/
def errMetric (c : Nat) (label : String) : Metric :=
  ⟨errorsDesc, ValueType.counter, Int.ofNat c, [label]⟩

/-- The classified outcome of the HTTP stage of one pull.  The fatal
token-read path terminates the process and is not represented. -/
inductive FetchOutcome where
  | newRequestError
  | requestError
  | statusError
  | readBodyError
  | ok (body : String)
  deriving DecidableEq, Repr

/-- The decoding stage (parse in the source, json.Unmarshal underneath):
a function from the fetched body to a Summary or a parse failure. -/
def Decoding : Type := String → Except Unit Summary

/-- One Collect invocation: given the current cumulative error count,
the decoder, and the fetch outcome, return the new error count and the
ordered list of sent metrics.  Mirrors the dispatch of Collect:
request-construction failure sends nothing; transport, status and
body-read failures increment the counter and send it with their class
label; a parse failure sends the counter with the label
parse body error WITHOUT incrementing it (the source has no errCnt
increment on that path); success sends the mapped observations and
never sends the error counter. -/
def collectStep (errCnt : Nat) (decode : Decoding) (fo : FetchOutcome) :
    Nat × List Metric :=
  match fo with
  | FetchOutcome.newRequestError => (errCnt, [])
  | FetchOutcome.requestError => (errCnt + 1, [errMetric (errCnt + 1) "request error"])
  | FetchOutcome.statusError => (errCnt + 1, [errMetric (errCnt + 1) "status error"])
  | FetchOutcome.readBodyError => (errCnt + 1, [errMetric (errCnt + 1) "read body error"])
  | FetchOutcome.ok body =>
    match decode body with
    | Except.error _ => (errCnt, [errMetric errCnt "parse body error"])
    | Except.ok summary => (errCnt, mapSummary summary)

/-- A sequence of Collect invocations threading the cumulative error
counter, returning the final counter and the concatenated emissions. -/
def runPulls (c : Nat) : List (FetchOutcome × Decoding) → Nat × List Metric
  | [] => (c, [])
  | p :: ps =>
    let r := collectStep c p.2 p.1
    let rest := runPulls r.1 ps
    (rest.1, r.2 ++ rest.2)

/-- The full descriptor catalog in the order Describe sends it:
the error counter first, then node, system-container, pod, and
container descriptors. -/
def describeList : List Desc :=
  [errorsDesc,
   nodeFsUsedBytes, nodeFsAvailableBytes, nodeFsInodesFree, nodeFsInodes, nodeFsInodesUsed,
   nodeRuntimeImageFsUsedBytes, nodeRuntimeImageFsAvailableBytes, nodeRuntimeImageFsInodesFree,
   nodeRuntimeImageFsInodes, nodeRuntimeImageFsInodesUsed,
   nodeRuntimeContainerFsUsedBytes, nodeRuntimeContainerFsAvailableBytes,
   nodeRuntimeContainerFsInodesFree, nodeRuntimeContainerFsInodes,
   nodeRuntimeContainerFsInodesUsed,
   nodeCPUUsageNanoCores, nodeCPUUsageCoreNanoSeconds,
   nodeMemoryAvailableBytes, nodeMemoryUsageBytes, nodeMemoryWorkingSetBytes,
   nodeMemoryRSSBytes, nodeMemoryPageFaults, nodeMemoryMajorPageFaults,
   nodeSwapAvailableBytes, nodeSwapUsageBytes,
   nodeRLimitMaxPID, nodeRLimitNumOfRunningProcess,
   nodeInterfaceRxBytes, nodeInterfaceRxErrors, nodeInterfaceTxBytes, nodeInterfaceTxErrors,
   nodeSystemContainerRootFsUsedBytes, nodeSystemContainerRootFsAvailableBytes,
   nodeSystemContainerRootFsInodesFree, nodeSystemContainerRootFsInodes,
   nodeSystemContainerRootFsInodesUsed,
   nodeSystemContainerLogsUsedBytes, nodeSystemContainerLogsAvailableBytes,
   nodeSystemContainerLogsInodesFree, nodeSystemContainerLogsInodes,
   nodeSystemContainerLogsInodesUsed,
   nodeSystemContainerCPUUsageNanoCores, nodeSystemContainerCPUUsageCoreNanoSeconds,
   nodeSystemContainerMemoryAvailableBytes, nodeSystemContainerMemoryUsageBytes,
   nodeSystemContainerMemoryWorkingSetBytes, nodeSystemContainerMemoryRSSBytes,
   nodeSystemContainerMemoryPageFaults, nodeSystemContainerMemoryMajorPageFaults,
   nodeSystemContainerSwapAvailableBytes, nodeSystemContainerSwapUsageBytes,
   nodeSystemContainerAcceleratorMemoryTotal, nodeSystemContainerAcceleratorMemoryUsed,
   nodeSystemContainerAcceleratorDutyCycle,
   podCPUUsageNanoCores, podCPUUsageCoreNanoSeconds,
   podMemoryAvailableBytes, podMemoryUsageBytes, podMemoryWorkingSetBytes,
   podMemoryRSSBytes, podMemoryPageFaults, podMemoryMajorPageFaults,
   podSwapAvailableBytes, podSwapUsageBytes,
   podInterfaceRxBytes, podInterfaceRxErrors, podInterfaceTxBytes, podInterfaceTxErrors,
   podEphemeralStorageUsedBytes, podEphemeralStorageAvailableBytes,
   podEphemeralStorageInodesFree, podEphemeralStorageInodes, podEphemeralStorageInodesUsed,
   podVolumeUsedBytes, podVolumeAvailableBytes, podVolumeInodesFree, podVolumeInodes,
   podVolumeInodesUsed, podVolumeHealthStatus, podProcessCount,
   containerRootFsUsedBytes, containerRootFsAvailableBytes, containerRootFsInodesFree,
   containerRootFsInodes, containerRootFsInodesUsed,
   containerLogsUsedBytes, containerLogsAvailableBytes, containerLogsInodesFree,
   containerLogsInodes, containerLogsInodesUsed,
   containerCPUUsageNanoCores, containerCPUUsageCoreNanoSeconds,
   containerMemoryAvailableBytes, containerMemoryUsageBytes, containerMemoryWorkingSetBytes,
   containerMemoryRSSBytes, containerMemoryPageFaults, containerMemoryMajorPageFaults,
   containerSwapAvailableBytes, containerSwapUsageBytes,
   containerAcceleratorMemoryTotal, containerAcceleratorMemoryUsed,
   containerAcceleratorDutyCycle]

/-- Last-write-wins lookup of a member value in a JSON object, the
resolution encoding/json applies to duplicate keys. -/
def jsonLookup {α : Type} (doc : List (String × α)) (k : String) : Option α :=
  doc.foldl (fun acc kv => if kv.1 = k then some kv.2 else acc) none

/-- Decoding of one FsStats group from the numeric members of its JSON
object, mirroring json.Unmarshal into the statsapi pointer fields: an
absent member leaves the corresponding optional unset; a present member
stores its value; duplicates resolve last-write-wins.  Unrecognized
members are ignored by construction. -/
def decodeFsStats (doc : List (String × Nat)) : FsStats :=
  ⟨jsonLookup doc "usedBytes", jsonLookup doc "capacityBytes", jsonLookup doc "inodes",
   jsonLookup doc "inodesFree", jsonLookup doc "inodesUsed"⟩

/-- The five optional leaves of an FsStats group, used to quantify over
the leaves of the group. -/
inductive FsField where
  | usedBytes
  | capacityBytes
  | inodes
  | inodesFree
  | inodesUsed
  deriving DecidableEq, Repr, Fintype

/-- The JSON member name of each FsStats leaf. -/
def FsField.key : FsField → String
  | usedBytes => "usedBytes"
  | capacityBytes => "capacityBytes"
  | inodes => "inodes"
  | inodesFree => "inodesFree"
  | inodesUsed => "inodesUsed"

/-- The accessor of each FsStats leaf. -/
def FsField.get (f : FsField) (fs : FsStats) : Option Nat :=
  match f with
  | usedBytes => fs.usedBytes
  | capacityBytes => fs.capacityBytes
  | inodes => fs.inodes
  | inodesFree => fs.inodesFree
  | inodesUsed => fs.inodesUsed

/-- A descriptor is admissible for a call site with k label values when
its schema has k labels and it is none of the descriptors the Mapper
never uses: the error counter and the three unreferenced
major-page-fault descriptors. -/
abbrev descOK (d : Desc) (k : Nat) : Prop :=
  d.labels.length = k ∧ d ≠ errorsDesc ∧ d ≠ nodeMemoryMajorPageFaults ∧
  d ≠ podMemoryMajorPageFaults ∧ d ≠ containerMemoryMajorPageFaults

/-- Every observation the Mapper emits satisfies this invariant: its
label count matches its descriptor schema, its descriptor is neither
the error counter nor one of the three major-page-fault descriptors the
Mapper never references, and its value is the float64 rounding of some
integer leaf. -/
def wellFormedMetric (m : Metric) : Prop :=
  m.labelValues.length = m.desc.labels.length ∧
  m.desc ≠ errorsDesc ∧
  m.desc ≠ nodeMemoryMajorPageFaults ∧
  m.desc ≠ podMemoryMajorPageFaults ∧
  m.desc ≠ containerMemoryMajorPageFaults ∧
  ∃ i : Int, m.value = f64roundInt i

/-- The sequence of error-counter values among a list of emissions, in
emission order. -/
def errVals (ms : List Metric) : List Int :=
  ms.filterMap (fun m => if m.desc = errorsDesc then some m.value else none)

/-- A decoder that always fails, as json.Unmarshal does on a body that
is not structurally valid. -/
def decodeFail : Decoding := fun _ => Except.error ()

/-- A decoder returning a fixed Summary, standing for json.Unmarshal on
a body that encodes it. -/
def decodeTo (s : Summary) : Decoding := fun _ => Except.ok s

/-- Number of emitted observations carrying a given descriptor. -/
def countObs (d : Desc) (ms : List Metric) : Nat :=
  (ms.filter (fun m => decide (m.desc = d))).length

/-- A node with no statistics groups present. -/
def emptyNode (n : String) : NodeStats :=
  ⟨n, [], none, none, none, none, ⟨none, none⟩, none, none⟩

/-- A summary with one pod holding one container whose Rootfs is the
given group and all other groups absent. -/
def oneContainerSnap (n ns p cn : String) (fs : FsStats) : Summary :=
  { node := emptyNode n,
    pods := [{ podRef := ⟨p, ns⟩,
               containers := [{ name := cn, cpu := none, memory := none, accelerators := [],
                                rootfs := some fs, logs := none, swap := none }],
               cpu := none, memory := none, network := none, volumeStats := [],
               ephemeralStorage := none, processStats := none, swap := none }] }

/-- Scenario A of the specification: the aws-xray-daemon pod whose
container Rootfs has capacityBytes 107361579008 and usedBytes 0
present, everything else absent. -/
def scenarioASummary : Summary :=
  oneContainerSnap "ip-172-20-125-125.ec2.internal" "kube-system" "aws-xray-daemon-bpmqx"
    "aws-xray-daemon" ⟨some 0, some 107361579008, none, none, none⟩

/-- A summary with one pod holding one container with exactly one
accelerator entry. -/
def accelSnap (n ns p cn aid amod amak : String) (mu mt dc : Nat) : Summary :=
  { node := emptyNode n,
    pods := [{ podRef := ⟨p, ns⟩,
               containers := [{ name := cn, cpu := none, memory := none,
                                accelerators := [⟨aid, amod, amak, mu, mt, dc⟩],
                                rootfs := none, logs := none, swap := none }],
               cpu := none, memory := none, network := none, volumeStats := [],
               ephemeralStorage := none, processStats := none, swap := none }] }

/-- A summary with one pod holding one volume whose health block is
present with the given abnormal flag and whose FsStats leaves are all
absent. -/
def healthSnap (b : Bool) : Summary :=
  { node := emptyNode "node",
    pods := [{ podRef := ⟨"pod", "ns"⟩, containers := [],
               cpu := none, memory := none, network := none,
               volumeStats := [⟨⟨none, none, none, none, none⟩, "vol", some ⟨b⟩⟩],
               ephemeralStorage := none, processStats := none, swap := none }] }

/-- A summary whose node Memory group has only MajorPageFaults present:
the leaf the claim expects to be emitted at node scope. -/
def majorPfSnap : Summary :=
  { node := { nodeName := "node", systemContainers := [], cpu := none,
              memory := some ⟨none, none, none, none, none, some 5⟩, network := none,
              fs := none, runtime := ⟨none, none⟩, rlimit := none, swap := none },
    pods := [] }

/-- A summary with both a node Fs leaf and a system-container Rootfs
leaf present, to observe which one Collect emits first. -/
def orderSnap : Summary :=
  { node := { nodeName := "node",
              systemContainers := [{ name := "kubelet", cpu := none, memory := none,
                                     accelerators := [], rootfs := some ⟨some 2, none, none, none, none⟩,
                                     logs := none, swap := none }],
              cpu := none, memory := none, network := none,
              fs := some ⟨some 1, none, none, none, none⟩,
              runtime := ⟨none, none⟩, rlimit := none, swap := none },
    pods := [] }

/-- A summary with one present leaf in every traversal group, to record
the complete emission order of Collect. -/
def fullOrderSnap : Summary :=
  { node := { nodeName := "node",
              systemContainers := [{ name := "kubelet", cpu := some ⟨some 3, none⟩,
                                     memory := some ⟨some 4, none, none, none, none, none⟩,
                                     accelerators := [⟨"a0", "m0", "k0", 6, 7, 8⟩],
                                     rootfs := some ⟨some 1, none, none, none, none⟩,
                                     logs := some ⟨some 2, none, none, none, none⟩,
                                     swap := some ⟨some 5, none⟩ }],
              cpu := some ⟨some 12, none⟩,
              memory := some ⟨some 13, none, none, none, none, none⟩,
              network := some ⟨[⟨"eth0", some 16, none, none, none⟩]⟩,
              fs := some ⟨some 9, none, none, none, none⟩,
              runtime := ⟨some ⟨some 10, none, none, none, none⟩,
                          some ⟨some 11, none, none, none, none⟩⟩,
              rlimit := some ⟨some 15, none⟩,
              swap := some ⟨some 14, none⟩ },
    pods := [{ podRef := ⟨"pod", "ns"⟩,
               containers := [{ name := "ctr", cpu := some ⟨some 24, none⟩, memory := none,
                                accelerators := [⟨"a1", "m1", "k1", 25, 26, 27⟩],
                                rootfs := some ⟨some 23, none, none, none, none⟩,
                                logs := none, swap := none }],
               cpu := some ⟨some 17, none⟩,
               memory := some ⟨some 18, none, none, none, none, none⟩,
               network := some ⟨[⟨"eth1", some 22, none, none, none⟩]⟩,
               volumeStats := [⟨⟨some 21, none, none, none, none⟩, "vol", some ⟨true⟩⟩],
               ephemeralStorage := some ⟨some 19, none, none, none, none⟩,
               processStats := some ⟨some 20⟩, swap := some ⟨some 28, none⟩ }] }

/-- A one-container family member whose Rootfs usedBytes leaf holds the
given value and no other leaf is present. -/
def c10snap (v : Nat) : Summary :=
  oneContainerSnap "node" "ns" "pod" "ctr" ⟨some v, none, none, none, none⟩

/-- Selector of the descriptor an FsStats leaf is pushed under, given
the five descriptors of the call site in source order. -/
def FsField.sel (f : FsField) (d1 d2 d3 d4 d5 : Desc) : Desc :=
  match f with
  | usedBytes => d1
  | capacityBytes => d2
  | inodes => d3
  | inodesFree => d4
  | inodesUsed => d5

/-- The two optional leaves of a CPU group. -/
inductive CpuField where
  | usageNanoCores
  | usageCoreNanoSeconds
  deriving DecidableEq, Repr, Fintype

/-- The JSON member name of each CPU leaf. -/
def CpuField.key : CpuField → String
  | usageNanoCores => "usageNanoCores"
  | usageCoreNanoSeconds => "usageCoreNanoSeconds"

/-- The accessor of each CPU leaf. -/
def CpuField.get (f : CpuField) (c : CPUStats) : Option Nat :=
  match f with
  | usageNanoCores => c.usageNanoCores
  | usageCoreNanoSeconds => c.usageCoreNanoSeconds

/-- Selector of the descriptor a CPU leaf is pushed under, given the
two descriptors of the call site in source order. -/
def CpuField.sel (f : CpuField) (d1 d2 : Desc) : Desc :=
  match f with
  | usageNanoCores => d1
  | usageCoreNanoSeconds => d2

/-- The six optional leaves of a Memory group. -/
inductive MemField where
  | availableBytes
  | usageBytes
  | workingSetBytes
  | rssBytes
  | pageFaults
  | majorPageFaults
  deriving DecidableEq, Repr, Fintype

/-- The JSON member name of each Memory leaf. -/
def MemField.key : MemField → String
  | availableBytes => "availableBytes"
  | usageBytes => "usageBytes"
  | workingSetBytes => "workingSetBytes"
  | rssBytes => "rssBytes"
  | pageFaults => "pageFaults"
  | majorPageFaults => "majorPageFaults"

/-- The accessor of each Memory leaf. -/
def MemField.get (f : MemField) (m : MemoryStats) : Option Nat :=
  match f with
  | availableBytes => m.availableBytes
  | usageBytes => m.usageBytes
  | workingSetBytes => m.workingSetBytes
  | rssBytes => m.rssBytes
  | pageFaults => m.pageFaults
  | majorPageFaults => m.majorPageFaults

/-- Selector of the descriptor a Memory leaf belongs to, given the six
descriptors of the scope in source order. -/
def MemField.sel (f : MemField) (d1 d2 d3 d4 d5 d6 : Desc) : Desc :=
  match f with
  | availableBytes => d1
  | usageBytes => d2
  | workingSetBytes => d3
  | rssBytes => d4
  | pageFaults => d5
  | majorPageFaults => d6

/-- The two optional leaves of a Swap group. -/
inductive SwapField where
  | swapAvailableBytes
  | swapUsageBytes
  deriving DecidableEq, Repr, Fintype

/-- The JSON member name of each Swap leaf. -/
def SwapField.key : SwapField → String
  | swapAvailableBytes => "swapAvailableBytes"
  | swapUsageBytes => "swapUsageBytes"

/-- The accessor of each Swap leaf. -/
def SwapField.get (f : SwapField) (s : SwapStats) : Option Nat :=
  match f with
  | swapAvailableBytes => s.swapAvailableBytes
  | swapUsageBytes => s.swapUsageBytes

/-- Selector of the descriptor a Swap leaf is pushed under. -/
def SwapField.sel (f : SwapField) (d1 d2 : Desc) : Desc :=
  match f with
  | swapAvailableBytes => d1
  | swapUsageBytes => d2

/-- The four optional leaves of a network interface. -/
inductive IfaceField where
  | rxBytes
  | rxErrors
  | txBytes
  | txErrors
  deriving DecidableEq, Repr, Fintype

/-- The JSON member name of each interface leaf. -/
def IfaceField.key : IfaceField → String
  | rxBytes => "rxBytes"
  | rxErrors => "rxErrors"
  | txBytes => "txBytes"
  | txErrors => "txErrors"

/-- The accessor of each interface leaf. -/
def IfaceField.get (f : IfaceField) (i : InterfaceStats) : Option Nat :=
  match f with
  | rxBytes => i.rxBytes
  | rxErrors => i.rxErrors
  | txBytes => i.txBytes
  | txErrors => i.txErrors

/-- Selector of the descriptor an interface leaf is pushed under. -/
def IfaceField.sel (f : IfaceField) (d1 d2 d3 d4 : Desc) : Desc :=
  match f with
  | rxBytes => d1
  | rxErrors => d2
  | txBytes => d3
  | txErrors => d4

/-- The two optional int64 leaves of the Rlimit group. -/
inductive RlimitField where
  | maxPID
  | numOfRunningProcesses
  deriving DecidableEq, Repr, Fintype

/-- The JSON member name of each Rlimit leaf (maxpid and curproc in the
stats schema). -/
def RlimitField.key : RlimitField → String
  | maxPID => "maxpid"
  | numOfRunningProcesses => "curproc"

/-- The accessor of each Rlimit leaf. -/
def RlimitField.get (f : RlimitField) (r : RlimitStats) : Option Int :=
  match f with
  | maxPID => r.maxPID
  | numOfRunningProcesses => r.numOfRunningProcesses

/-- The descriptor each Rlimit leaf is sent under. -/
def RlimitField.desc : RlimitField → Desc
  | maxPID => nodeRLimitMaxPID
  | numOfRunningProcesses => nodeRLimitNumOfRunningProcess

/-- Decoding of one CPU group from the numeric members of its JSON
object, mirroring json.Unmarshal into the statsapi pointer fields. -/
def decodeCPUStats (doc : List (String × Nat)) : CPUStats :=
  ⟨jsonLookup doc "usageNanoCores", jsonLookup doc "usageCoreNanoSeconds"⟩

/-- Decoding of one Memory group from the numeric members of its JSON
object. -/
def decodeMemoryStats (doc : List (String × Nat)) : MemoryStats :=
  ⟨jsonLookup doc "availableBytes", jsonLookup doc "usageBytes",
   jsonLookup doc "workingSetBytes", jsonLookup doc "rssBytes",
   jsonLookup doc "pageFaults", jsonLookup doc "majorPageFaults"⟩

/-- Decoding of one Swap group from the numeric members of its JSON
object. -/
def decodeSwapStats (doc : List (String × Nat)) : SwapStats :=
  ⟨jsonLookup doc "swapAvailableBytes", jsonLookup doc "swapUsageBytes"⟩

/-- Decoding of the Rlimit group from the numeric members of its JSON
object (int64 leaves). -/
def decodeRlimitStats (doc : List (String × Int)) : RlimitStats :=
  ⟨jsonLookup doc "maxpid", jsonLookup doc "curproc"⟩

/-- Decoding of one network interface from its name and the numeric
members of its JSON object. -/
def decodeInterfaceStats (nm : String) (doc : List (String × Nat)) : InterfaceStats :=
  ⟨nm, jsonLookup doc "rxBytes", jsonLookup doc "rxErrors",
   jsonLookup doc "txBytes", jsonLookup doc "txErrors"⟩

/-- Decoding of the ProcessStats group from the numeric members of its
JSON object. -/
def decodeProcessStats (doc : List (String × Nat)) : ProcessStats :=
  ⟨jsonLookup doc "process_count"⟩

/-- The nine places an FsStats-like group occurs in the data model. -/
inductive FsScope where
  | nodeFs
  | imageFs
  | containerFs
  | sysRootfs
  | sysLogs
  | podEphemeral
  | podVolume
  | ctrRootfs
  | ctrLogs
  deriving DecidableEq, Repr

/-- The four places a CPU group occurs. -/
inductive CpuScope where
  | node
  | sysCont
  | pod
  | ctr
  deriving DecidableEq, Repr

/-- The three places a Memory group is mapped through mapMem5, without
its MajorPageFaults leaf (the system-container scope, mapped through
mapMem6, is handled separately). -/
inductive Mem5Scope where
  | node
  | pod
  | ctr
  deriving DecidableEq, Repr

/-- The four places a Swap group occurs. -/
inductive SwapScope where
  | node
  | sysCont
  | pod
  | ctr
  deriving DecidableEq, Repr

/-- The two places a network-interface list occurs. -/
inductive IfaceScope where
  | node
  | pod
  deriving DecidableEq, Repr

/-- A summary holding only the given node-scope groups, with node name
node and no system containers or pods. -/
def soloNode (cpu : Option CPUStats) (mem : Option MemoryStats) (net : Option NetworkStats)
    (fs imageFs ctrFs : Option FsStats) (rl : Option RlimitStats) (sw : Option SwapStats) :
    Summary :=
  { node := { nodeName := "node", systemContainers := [], cpu := cpu, memory := mem,
              network := net, fs := fs, runtime := ⟨imageFs, ctrFs⟩, rlimit := rl,
              swap := sw },
    pods := [] }

/-- A summary holding one system container named sys with the given
groups and nothing else. -/
def soloSys (cpu : Option CPUStats) (mem : Option MemoryStats) (rootfs logs : Option FsStats)
    (sw : Option SwapStats) : Summary :=
  { node := { nodeName := "node",
              systemContainers := [⟨"sys", cpu, mem, [], rootfs, logs, sw⟩],
              cpu := none, memory := none, network := none, fs := none,
              runtime := ⟨none, none⟩, rlimit := none, swap := none },
    pods := [] }

/-- A summary holding one pod (pod in namespace ns) with the given
groups and containers, and an empty node. -/
def soloPod (cpu : Option CPUStats) (mem : Option MemoryStats) (net : Option NetworkStats)
    (vols : List VolumeStats) (eph : Option FsStats) (ps : Option ProcessStats)
    (sw : Option SwapStats) (ctrs : List ContainerStats) : Summary :=
  { node := emptyNode "node",
    pods := [{ podRef := ⟨"pod", "ns"⟩, containers := ctrs, cpu := cpu, memory := mem,
               network := net, volumeStats := vols, ephemeralStorage := eph,
               processStats := ps, swap := sw }] }

/-- A summary holding one pod container named ctr with the given groups
and nothing else. -/
def soloCtr (cpu : Option CPUStats) (mem : Option MemoryStats) (rootfs logs : Option FsStats)
    (sw : Option SwapStats) : Summary :=
  soloPod none none none [] none none none [⟨"ctr", cpu, mem, [], rootfs, logs, sw⟩]

/-- The single-group family of summaries for each FsStats scope. -/
def fsSnap : FsScope → FsStats → Summary
  | FsScope.nodeFs, fs => soloNode none none none (some fs) none none none none
  | FsScope.imageFs, fs => soloNode none none none none (some fs) none none none
  | FsScope.containerFs, fs => soloNode none none none none none (some fs) none none
  | FsScope.sysRootfs, fs => soloSys none none (some fs) none none
  | FsScope.sysLogs, fs => soloSys none none none (some fs) none
  | FsScope.podEphemeral, fs => soloPod none none none [] (some fs) none none []
  | FsScope.podVolume, fs => soloPod none none none [⟨fs, "vol", none⟩] none none none []
  | FsScope.ctrRootfs, fs => soloCtr none none (some fs) none none
  | FsScope.ctrLogs, fs => soloCtr none none none (some fs) none

/-- The single-group family of summaries for each CPU scope. -/
def cpuSnap : CpuScope → CPUStats → Summary
  | CpuScope.node, c => soloNode (some c) none none none none none none none
  | CpuScope.sysCont, c => soloSys (some c) none none none none
  | CpuScope.pod, c => soloPod (some c) none none [] none none none []
  | CpuScope.ctr, c => soloCtr (some c) none none none none

/-- The single-group family of summaries for the non-system-container
Memory scopes. -/
def mem5Snap : Mem5Scope → MemoryStats → Summary
  | Mem5Scope.node, m => soloNode none (some m) none none none none none none
  | Mem5Scope.pod, m => soloPod none (some m) none [] none none none []
  | Mem5Scope.ctr, m => soloCtr none (some m) none none none

/-- The single-group family for the system-container Memory scope. -/
def sysMemSnap (m : MemoryStats) : Summary := soloSys none (some m) none none none

/-- The single-group family of summaries for each Swap scope. -/
def swapSnap : SwapScope → SwapStats → Summary
  | SwapScope.node, s => soloNode none none none none none none none (some s)
  | SwapScope.sysCont, s => soloSys none none none none (some s)
  | SwapScope.pod, s => soloPod none none none [] none none (some s) []
  | SwapScope.ctr, s => soloCtr none none none none (some s)

/-- The single-interface family of summaries for each interface scope. -/
def ifaceSnap : IfaceScope → InterfaceStats → Summary
  | IfaceScope.node, i => soloNode none none (some ⟨[i]⟩) none none none none none
  | IfaceScope.pod, i => soloPod none none (some ⟨[i]⟩) [] none none none []

/-- The single-group family for the Rlimit scope. -/
def rlimitSnap (r : RlimitStats) : Summary :=
  soloNode none none none none none none (some r) none

/-- The single-group family for the ProcessStats scope. -/
def processSnap (p : ProcessStats) : Summary :=
  soloPod none none none [] none (some p) none []

/-- The descriptor of each FsStats leaf at each scope, in the source
order of the five pushMetrics calls. -/
def fsDesc : FsScope → FsField → Desc
  | FsScope.nodeFs, f => f.sel nodeFsUsedBytes nodeFsAvailableBytes nodeFsInodes
      nodeFsInodesFree nodeFsInodesUsed
  | FsScope.imageFs, f => f.sel nodeRuntimeImageFsUsedBytes nodeRuntimeImageFsAvailableBytes
      nodeRuntimeImageFsInodes nodeRuntimeImageFsInodesFree nodeRuntimeImageFsInodesUsed
  | FsScope.containerFs, f => f.sel nodeRuntimeContainerFsUsedBytes
      nodeRuntimeContainerFsAvailableBytes nodeRuntimeContainerFsInodes
      nodeRuntimeContainerFsInodesFree nodeRuntimeContainerFsInodesUsed
  | FsScope.sysRootfs, f => f.sel nodeSystemContainerRootFsUsedBytes
      nodeSystemContainerRootFsAvailableBytes nodeSystemContainerRootFsInodes
      nodeSystemContainerRootFsInodesFree nodeSystemContainerRootFsInodesUsed
  | FsScope.sysLogs, f => f.sel nodeSystemContainerLogsUsedBytes
      nodeSystemContainerLogsAvailableBytes nodeSystemContainerLogsInodes
      nodeSystemContainerLogsInodesFree nodeSystemContainerLogsInodesUsed
  | FsScope.podEphemeral, f => f.sel podEphemeralStorageUsedBytes
      podEphemeralStorageAvailableBytes podEphemeralStorageInodes
      podEphemeralStorageInodesFree podEphemeralStorageInodesUsed
  | FsScope.podVolume, f => f.sel podVolumeUsedBytes podVolumeAvailableBytes podVolumeInodes
      podVolumeInodesFree podVolumeInodesUsed
  | FsScope.ctrRootfs, f => f.sel containerRootFsUsedBytes containerRootFsAvailableBytes
      containerRootFsInodes containerRootFsInodesFree containerRootFsInodesUsed
  | FsScope.ctrLogs, f => f.sel containerLogsUsedBytes containerLogsAvailableBytes
      containerLogsInodes containerLogsInodesFree containerLogsInodesUsed

/-- The descriptor of each CPU leaf at each scope. -/
def cpuDesc : CpuScope → CpuField → Desc
  | CpuScope.node, f => f.sel nodeCPUUsageNanoCores nodeCPUUsageCoreNanoSeconds
  | CpuScope.sysCont, f => f.sel nodeSystemContainerCPUUsageNanoCores
      nodeSystemContainerCPUUsageCoreNanoSeconds
  | CpuScope.pod, f => f.sel podCPUUsageNanoCores podCPUUsageCoreNanoSeconds
  | CpuScope.ctr, f => f.sel containerCPUUsageNanoCores containerCPUUsageCoreNanoSeconds

/-- The descriptor of each Memory leaf at the non-system-container
scopes (including the never-emitted MajorPageFaults descriptors). -/
def mem5Desc : Mem5Scope → MemField → Desc
  | Mem5Scope.node, f => f.sel nodeMemoryAvailableBytes nodeMemoryUsageBytes
      nodeMemoryWorkingSetBytes nodeMemoryRSSBytes nodeMemoryPageFaults
      nodeMemoryMajorPageFaults
  | Mem5Scope.pod, f => f.sel podMemoryAvailableBytes podMemoryUsageBytes
      podMemoryWorkingSetBytes podMemoryRSSBytes podMemoryPageFaults
      podMemoryMajorPageFaults
  | Mem5Scope.ctr, f => f.sel containerMemoryAvailableBytes containerMemoryUsageBytes
      containerMemoryWorkingSetBytes containerMemoryRSSBytes containerMemoryPageFaults
      containerMemoryMajorPageFaults

/-- The descriptor of each Memory leaf at the system-container scope. -/
def sysMemDesc (f : MemField) : Desc :=
  f.sel nodeSystemContainerMemoryAvailableBytes nodeSystemContainerMemoryUsageBytes
    nodeSystemContainerMemoryWorkingSetBytes nodeSystemContainerMemoryRSSBytes
    nodeSystemContainerMemoryPageFaults nodeSystemContainerMemoryMajorPageFaults

/-- The descriptor of each Swap leaf at each scope. -/
def swapDesc : SwapScope → SwapField → Desc
  | SwapScope.node, f => f.sel nodeSwapAvailableBytes nodeSwapUsageBytes
  | SwapScope.sysCont, f => f.sel nodeSystemContainerSwapAvailableBytes
      nodeSystemContainerSwapUsageBytes
  | SwapScope.pod, f => f.sel podSwapAvailableBytes podSwapUsageBytes
  | SwapScope.ctr, f => f.sel containerSwapAvailableBytes containerSwapUsageBytes

/-- The descriptor of each interface leaf at each scope. -/
def ifaceDesc : IfaceScope → IfaceField → Desc
  | IfaceScope.node, f => f.sel nodeInterfaceRxBytes nodeInterfaceRxErrors
      nodeInterfaceTxBytes nodeInterfaceTxErrors
  | IfaceScope.pod, f => f.sel podInterfaceRxBytes podInterfaceRxErrors
      podInterfaceTxBytes podInterfaceTxErrors

/-- The label values of the family snapshots per FsStats scope. -/
def fsLabels : FsScope → List String
  | FsScope.nodeFs => ["node"]
  | FsScope.imageFs => ["node"]
  | FsScope.containerFs => ["node"]
  | FsScope.sysRootfs => ["node", "sys"]
  | FsScope.sysLogs => ["node", "sys"]
  | FsScope.podEphemeral => ["node", "ns", "pod"]
  | FsScope.podVolume => ["node", "ns", "pod", "vol"]
  | FsScope.ctrRootfs => ["node", "ns", "pod", "ctr"]
  | FsScope.ctrLogs => ["node", "ns", "pod", "ctr"]

/-- The label values of the family snapshots per CPU scope. -/
def cpuLabels : CpuScope → List String
  | CpuScope.node => ["node"]
  | CpuScope.sysCont => ["node", "sys"]
  | CpuScope.pod => ["node", "ns", "pod"]
  | CpuScope.ctr => ["node", "ns", "pod", "ctr"]

/-- The label values of the family snapshots per Memory scope. -/
def mem5Labels : Mem5Scope → List String
  | Mem5Scope.node => ["node"]
  | Mem5Scope.pod => ["node", "ns", "pod"]
  | Mem5Scope.ctr => ["node", "ns", "pod", "ctr"]

/-- The label values of the family snapshots per Swap scope. -/
def swapLabels : SwapScope → List String
  | SwapScope.node => ["node"]
  | SwapScope.sysCont => ["node", "sys"]
  | SwapScope.pod => ["node", "ns", "pod"]
  | SwapScope.ctr => ["node", "ns", "pod", "ctr"]

/-- The base label values (before the interface name) per interface
scope. -/
def ifaceBase : IfaceScope → List String
  | IfaceScope.node => ["node"]
  | IfaceScope.pod => ["node", "ns", "pod"]

/-- Membership in the emit-if-present primitive forces the leaf to be
present and determines the metric completely. -/
theorem mem_pushMetrics {m : Metric} {d : Desc} {v : Option Nat} {ls : List String}
    (h : m ∈ pushMetrics d v ls) :
    ∃ x, v = some x ∧ m = ⟨d, ValueType.gauge, Int.ofNat (f64round x), ls⟩ := by
  cases v with
  | none => simp [pushMetrics] at h
  | some x =>
    simp only [pushMetrics, List.mem_singleton] at h
    exact ⟨x, rfl, h⟩

/-- Membership in an optional section of the traversal forces the
optional group to be present. -/
theorem mem_optElim {α : Type} {o : Option α} {f : α → List Metric} {m : Metric}
    (h : m ∈ o.elim [] f) : ∃ x, o = some x ∧ m ∈ f x := by
  cases o with
  | none => simp [Option.elim] at h
  | some x => exact ⟨x, rfl, h⟩

/-- Rounding a nonnegative integer agrees with the signed rounding. -/
theorem f64roundInt_ofNat (n : Nat) : f64roundInt (Int.ofNat n) = Int.ofNat (f64round n) := by
  simp [f64roundInt]

theorem wf_pushMetrics {d : Desc} {v : Option Nat} {ls : List String} (k : Nat)
    (hl : ls.length = k) (hd : descOK d k) :
    ∀ m ∈ pushMetrics d v ls, wellFormedMetric m := by
  intro m hm
  obtain ⟨x, _, rfl⟩ := mem_pushMetrics hm
  obtain ⟨h1, h2, h3, h4, h5⟩ := hd
  exact ⟨hl.trans h1.symm, h2, h3, h4, h5, Int.ofNat x, (f64roundInt_ofNat x).symm⟩

theorem wf_mapFs5 {d1 d2 d3 d4 d5 : Desc} {fs : FsStats} {ls : List String} (k : Nat)
    (hl : ls.length = k) (h1 : descOK d1 k) (h2 : descOK d2 k) (h3 : descOK d3 k)
    (h4 : descOK d4 k) (h5 : descOK d5 k) :
    ∀ m ∈ mapFs5 d1 d2 d3 d4 d5 fs ls, wellFormedMetric m := by
  intro m hm
  simp only [mapFs5, List.mem_append] at hm
  rcases hm with ((((hm | hm) | hm) | hm) | hm)
  · exact wf_pushMetrics k hl h1 m hm
  · exact wf_pushMetrics k hl h2 m hm
  · exact wf_pushMetrics k hl h3 m hm
  · exact wf_pushMetrics k hl h4 m hm
  · exact wf_pushMetrics k hl h5 m hm

theorem wf_mapCpu2 {d1 d2 : Desc} {c : CPUStats} {ls : List String} (k : Nat)
    (hl : ls.length = k) (h1 : descOK d1 k) (h2 : descOK d2 k) :
    ∀ m ∈ mapCpu2 d1 d2 c ls, wellFormedMetric m := by
  intro m hm
  simp only [mapCpu2, List.mem_append] at hm
  rcases hm with hm | hm
  · exact wf_pushMetrics k hl h1 m hm
  · exact wf_pushMetrics k hl h2 m hm

theorem wf_mapMem5 {d1 d2 d3 d4 d5 : Desc} {mm : MemoryStats} {ls : List String} (k : Nat)
    (hl : ls.length = k) (h1 : descOK d1 k) (h2 : descOK d2 k) (h3 : descOK d3 k)
    (h4 : descOK d4 k) (h5 : descOK d5 k) :
    ∀ m ∈ mapMem5 d1 d2 d3 d4 d5 mm ls, wellFormedMetric m := by
  intro m hm
  simp only [mapMem5, List.mem_append] at hm
  rcases hm with ((((hm | hm) | hm) | hm) | hm)
  · exact wf_pushMetrics k hl h1 m hm
  · exact wf_pushMetrics k hl h2 m hm
  · exact wf_pushMetrics k hl h3 m hm
  · exact wf_pushMetrics k hl h4 m hm
  · exact wf_pushMetrics k hl h5 m hm

theorem wf_mapMem6 {d1 d2 d3 d4 d5 d6 : Desc} {mm : MemoryStats} {ls : List String} (k : Nat)
    (hl : ls.length = k) (h1 : descOK d1 k) (h2 : descOK d2 k) (h3 : descOK d3 k)
    (h4 : descOK d4 k) (h5 : descOK d5 k) (h6 : descOK d6 k) :
    ∀ m ∈ mapMem6 d1 d2 d3 d4 d5 d6 mm ls, wellFormedMetric m := by
  intro m hm
  simp only [mapMem6, List.mem_append] at hm
  rcases hm with (((((hm | hm) | hm) | hm) | hm) | hm)
  · exact wf_pushMetrics k hl h1 m hm
  · exact wf_pushMetrics k hl h2 m hm
  · exact wf_pushMetrics k hl h3 m hm
  · exact wf_pushMetrics k hl h4 m hm
  · exact wf_pushMetrics k hl h5 m hm
  · exact wf_pushMetrics k hl h6 m hm

theorem wf_mapSwap2 {d1 d2 : Desc} {sw : SwapStats} {ls : List String} (k : Nat)
    (hl : ls.length = k) (h1 : descOK d1 k) (h2 : descOK d2 k) :
    ∀ m ∈ mapSwap2 d1 d2 sw ls, wellFormedMetric m := by
  intro m hm
  simp only [mapSwap2, List.mem_append] at hm
  rcases hm with hm | hm
  · exact wf_pushMetrics k hl h1 m hm
  · exact wf_pushMetrics k hl h2 m hm

theorem wf_mapIface4 {d1 d2 d3 d4 : Desc} {i : InterfaceStats} {base : List String} (k : Nat)
    (hl : base.length + 1 = k) (h1 : descOK d1 k) (h2 : descOK d2 k) (h3 : descOK d3 k)
    (h4 : descOK d4 k) :
    ∀ m ∈ mapIface4 d1 d2 d3 d4 i base, wellFormedMetric m := by
  have hl' : (base ++ [i.name]).length = k := by simpa using hl
  intro m hm
  simp only [mapIface4, List.mem_append] at hm
  rcases hm with ((hm | hm) | hm) | hm
  · exact wf_pushMetrics k hl' h1 m hm
  · exact wf_pushMetrics k hl' h2 m hm
  · exact wf_pushMetrics k hl' h3 m hm
  · exact wf_pushMetrics k hl' h4 m hm

theorem wf_mapAccel3 {d1 d2 d3 : Desc} {a : AcceleratorStats} {base : List String} (k : Nat)
    (hl : base.length + 3 = k) (h1 : descOK d1 k) (h2 : descOK d2 k) (h3 : descOK d3 k) :
    ∀ m ∈ mapAccel3 d1 d2 d3 a base, wellFormedMetric m := by
  have hl' : (base ++ [a.id, a.model, a.make]).length = k := by
    simp only [List.length_append, List.length_cons, List.length_nil]
    omega
  intro m hm
  simp only [mapAccel3, List.mem_append] at hm
  rcases hm with (hm | hm) | hm
  · exact wf_pushMetrics k hl' h1 m hm
  · exact wf_pushMetrics k hl' h2 m hm
  · exact wf_pushMetrics k hl' h3 m hm

theorem wf_mapRlimit {r : RlimitStats} {ls : List String} (hl : ls.length = 1) :
    ∀ m ∈ mapRlimit r ls, wellFormedMetric m := by
  obtain ⟨mp, np⟩ := r
  intro m hm
  have hwfMax : ∀ i : Int, wellFormedMetric
      ⟨nodeRLimitMaxPID, ValueType.gauge, f64roundInt i, ls⟩ := by
    intro i
    exact ⟨by simp [hl, nodeRLimitMaxPID],
      (by decide : nodeRLimitMaxPID ≠ errorsDesc),
      (by decide : nodeRLimitMaxPID ≠ nodeMemoryMajorPageFaults),
      (by decide : nodeRLimitMaxPID ≠ podMemoryMajorPageFaults),
      (by decide : nodeRLimitMaxPID ≠ containerMemoryMajorPageFaults), i, rfl⟩
  have hwfNum : ∀ i : Int, wellFormedMetric
      ⟨nodeRLimitNumOfRunningProcess, ValueType.gauge, f64roundInt i, ls⟩ := by
    intro i
    exact ⟨by simp [hl, nodeRLimitNumOfRunningProcess],
      (by decide : nodeRLimitNumOfRunningProcess ≠ errorsDesc),
      (by decide : nodeRLimitNumOfRunningProcess ≠ nodeMemoryMajorPageFaults),
      (by decide : nodeRLimitNumOfRunningProcess ≠ podMemoryMajorPageFaults),
      (by decide : nodeRLimitNumOfRunningProcess ≠ containerMemoryMajorPageFaults), i, rfl⟩
  rcases mp with _ | v
  · rcases np with _ | w
    · simp [mapRlimit] at hm
    · simp only [mapRlimit, List.nil_append, List.mem_singleton] at hm
      subst hm
      exact hwfNum w
  · rcases np with _ | w
    · simp only [mapRlimit, List.append_nil, List.mem_singleton] at hm
      subst hm
      exact hwfMax v
    · simp only [mapRlimit, List.mem_append, List.mem_singleton] at hm
      rcases hm with hm | hm
      · subst hm
        exact hwfMax v
      · subst hm
        exact hwfNum w

theorem wf_mapSystemContainer {n : String} {sc : ContainerStats} :
    ∀ m ∈ mapSystemContainer n sc, wellFormedMetric m := by
  intro m hm
  simp only [mapSystemContainer, List.mem_append] at hm
  rcases hm with (((((hm | hm) | hm) | hm) | hm) | hm)
  · obtain ⟨fs, _, hm⟩ := mem_optElim hm
    exact wf_mapFs5 2 (by simp) (by decide) (by decide) (by decide) (by decide) (by decide) m hm
  · obtain ⟨fs, _, hm⟩ := mem_optElim hm
    exact wf_mapFs5 2 (by simp) (by decide) (by decide) (by decide) (by decide) (by decide) m hm
  · obtain ⟨c, _, hm⟩ := mem_optElim hm
    exact wf_mapCpu2 2 (by simp) (by decide) (by decide) m hm
  · obtain ⟨mm, _, hm⟩ := mem_optElim hm
    exact wf_mapMem6 2 (by simp) (by decide) (by decide) (by decide) (by decide) (by decide)
      (by decide) m hm
  · obtain ⟨sw, _, hm⟩ := mem_optElim hm
    exact wf_mapSwap2 2 (by simp) (by decide) (by decide) m hm
  · rw [List.mem_flatMap] at hm
    obtain ⟨a, _, hm⟩ := hm
    exact wf_mapAccel3 5 (by simp) (by decide) (by decide) (by decide) m hm

theorem wf_mapNodeAfterSystemContainers {node : NodeStats} :
    ∀ m ∈ mapNodeAfterSystemContainers node, wellFormedMetric m := by
  intro m hm
  simp only [mapNodeAfterSystemContainers, List.mem_append] at hm
  rcases hm with (((((((hm | hm) | hm) | hm) | hm) | hm) | hm) | hm)
  · obtain ⟨fs, _, hm⟩ := mem_optElim hm
    exact wf_mapFs5 1 (by simp) (by decide) (by decide) (by decide) (by decide) (by decide) m hm
  · obtain ⟨fs, _, hm⟩ := mem_optElim hm
    exact wf_mapFs5 1 (by simp) (by decide) (by decide) (by decide) (by decide) (by decide) m hm
  · obtain ⟨fs, _, hm⟩ := mem_optElim hm
    exact wf_mapFs5 1 (by simp) (by decide) (by decide) (by decide) (by decide) (by decide) m hm
  · obtain ⟨c, _, hm⟩ := mem_optElim hm
    exact wf_mapCpu2 1 (by simp) (by decide) (by decide) m hm
  · obtain ⟨mm, _, hm⟩ := mem_optElim hm
    exact wf_mapMem5 1 (by simp) (by decide) (by decide) (by decide) (by decide) (by decide) m hm
  · obtain ⟨sw, _, hm⟩ := mem_optElim hm
    exact wf_mapSwap2 1 (by simp) (by decide) (by decide) m hm
  · obtain ⟨r, _, hm⟩ := mem_optElim hm
    exact wf_mapRlimit (by simp) m hm
  · obtain ⟨nw, _, hm⟩ := mem_optElim hm
    rw [List.mem_flatMap] at hm
    obtain ⟨i, _, hm⟩ := hm
    exact wf_mapIface4 2 (by simp) (by decide) (by decide) (by decide) (by decide) m hm

theorem wf_mapVolume {n ns p : String} {v : VolumeStats} :
    ∀ m ∈ mapVolume n ns p v, wellFormedMetric m := by
  intro m hm
  simp only [mapVolume, List.mem_append] at hm
  rcases hm with hm | hm
  · exact wf_mapFs5 4 (by simp) (by decide) (by decide) (by decide) (by decide) (by decide) m hm
  · obtain ⟨h, _, hm⟩ := mem_optElim hm
    exact wf_pushMetrics 4 (by simp) (by decide) m hm

theorem wf_mapPodContainer {n ns p : String} {c : ContainerStats} :
    ∀ m ∈ mapPodContainer n ns p c, wellFormedMetric m := by
  intro m hm
  simp only [mapPodContainer, List.mem_append] at hm
  rcases hm with (((((hm | hm) | hm) | hm) | hm) | hm)
  · obtain ⟨fs, _, hm⟩ := mem_optElim hm
    exact wf_mapFs5 4 (by simp) (by decide) (by decide) (by decide) (by decide) (by decide) m hm
  · obtain ⟨fs, _, hm⟩ := mem_optElim hm
    exact wf_mapFs5 4 (by simp) (by decide) (by decide) (by decide) (by decide) (by decide) m hm
  · obtain ⟨cp, _, hm⟩ := mem_optElim hm
    exact wf_mapCpu2 4 (by simp) (by decide) (by decide) m hm
  · obtain ⟨mm, _, hm⟩ := mem_optElim hm
    exact wf_mapMem5 4 (by simp) (by decide) (by decide) (by decide) (by decide) (by decide) m hm
  · obtain ⟨sw, _, hm⟩ := mem_optElim hm
    exact wf_mapSwap2 4 (by simp) (by decide) (by decide) m hm
  · rw [List.mem_flatMap] at hm
    obtain ⟨a, _, hm⟩ := hm
    exact wf_mapAccel3 7 (by simp) (by decide) (by decide) (by decide) m hm

theorem wf_mapPod {n : String} {pod : PodStats} :
    ∀ m ∈ mapPod n pod, wellFormedMetric m := by
  intro m hm
  simp only [mapPod, List.mem_append] at hm
  rcases hm with (((((((hm | hm) | hm) | hm) | hm) | hm) | hm) | hm)
  · obtain ⟨c, _, hm⟩ := mem_optElim hm
    exact wf_mapCpu2 3 (by simp) (by decide) (by decide) m hm
  · obtain ⟨mm, _, hm⟩ := mem_optElim hm
    exact wf_mapMem5 3 (by simp) (by decide) (by decide) (by decide) (by decide) (by decide) m hm
  · obtain ⟨sw, _, hm⟩ := mem_optElim hm
    exact wf_mapSwap2 3 (by simp) (by decide) (by decide) m hm
  · obtain ⟨fs, _, hm⟩ := mem_optElim hm
    exact wf_mapFs5 3 (by simp) (by decide) (by decide) (by decide) (by decide) (by decide) m hm
  · obtain ⟨ps, _, hm⟩ := mem_optElim hm
    exact wf_pushMetrics 3 (by simp) (by decide) m hm
  · rw [List.mem_flatMap] at hm
    obtain ⟨v, _, hm⟩ := hm
    exact wf_mapVolume m hm
  · obtain ⟨nw, _, hm⟩ := mem_optElim hm
    rw [List.mem_flatMap] at hm
    obtain ⟨i, _, hm⟩ := hm
    exact wf_mapIface4 4 (by simp) (by decide) (by decide) (by decide) (by decide) m hm
  · rw [List.mem_flatMap] at hm
    obtain ⟨c, _, hm⟩ := hm
    exact wf_mapPodContainer m hm

/-- Every observation the Mapper produces from any Summary satisfies
the well-formedness invariant. -/
theorem wf_mapSummary {s : Summary} : ∀ m ∈ mapSummary s, wellFormedMetric m := by
  intro m hm
  simp only [mapSummary, List.mem_append] at hm
  rcases hm with (hm | hm) | hm
  · rw [List.mem_flatMap] at hm
    obtain ⟨sc, _, hm⟩ := hm
    exact wf_mapSystemContainer m hm
  · exact wf_mapNodeAfterSystemContainers m hm
  · rw [List.mem_flatMap] at hm
    obtain ⟨pod, _, hm⟩ := hm
    exact wf_mapPod m hm

/-- The Mapper never emits under the error-counter descriptor. -/
theorem errVals_mapSummary (s : Summary) : errVals (mapSummary s) = [] := by
  rw [errVals, List.filterMap_eq_nil_iff]
  intro m hm
  rw [if_neg (wf_mapSummary m hm).2.1]

theorem errVals_append (a b : List Metric) : errVals (a ++ b) = errVals a ++ errVals b := by
  simp [errVals]

/-- One Collect invocation never decreases the counter. -/
theorem collectStep_counter_le (c : Nat) (dec : Decoding) (fo : FetchOutcome) :
    c ≤ (collectStep c dec fo).1 := by
  cases fo with
  | newRequestError => simp [collectStep]
  | requestError => simp [collectStep]
  | statusError => simp [collectStep]
  | readBodyError => simp [collectStep]
  | ok b => cases hdec : dec b <;> simp [collectStep, hdec]

/-- The error values one Collect invocation emits: none, or exactly the
new counter value. -/
theorem errVals_collectStep_shape (c : Nat) (dec : Decoding) (fo : FetchOutcome) :
    errVals (collectStep c dec fo).2 = [] ∨
    errVals (collectStep c dec fo).2 = [Int.ofNat (collectStep c dec fo).1] := by
  cases fo with
  | newRequestError => left; simp [collectStep, errVals]
  | requestError => right; simp [collectStep, errVals, errMetric, errorsDesc]
  | statusError => right; simp [collectStep, errVals, errMetric, errorsDesc]
  | readBodyError => right; simp [collectStep, errVals, errMetric, errorsDesc]
  | ok b =>
    cases hdec : dec b with
    | error e => right; simp [collectStep, hdec, errVals, errMetric, errorsDesc]
    | ok s => left; simp [collectStep, hdec, errVals_mapSummary]

/-- Across any sequence of Collect invocations, the counter never
decreases, every emitted error value is at least the starting counter,
and the emitted error values are monotonically nondecreasing in
emission order. -/
theorem errVals_runPulls_mono (c : Nat) (ps : List (FetchOutcome × Decoding)) :
    c ≤ (runPulls c ps).1 ∧
    (∀ v ∈ errVals (runPulls c ps).2, Int.ofNat c ≤ v) ∧
    List.Chain' (· ≤ ·) (errVals (runPulls c ps).2) := by
  induction ps generalizing c with
  | nil => simp [runPulls, errVals]
  | cons p ps ih =>
    obtain ⟨ih1, ih2, ih3⟩ := ih (collectStep c p.2 p.1).1
    have hstep_le : c ≤ (collectStep c p.2 p.1).1 := collectStep_counter_le c p.2 p.1
    have hrun : runPulls c (p :: ps) =
        ((runPulls (collectStep c p.2 p.1).1 ps).1,
         (collectStep c p.2 p.1).2 ++ (runPulls (collectStep c p.2 p.1).1 ps).2) := rfl
    rw [hrun]
    refine ⟨le_trans hstep_le ih1, ?_, ?_⟩
    · intro v hv
      rw [errVals_append, List.mem_append] at hv
      rcases hv with hv | hv
      · rcases errVals_collectStep_shape c p.2 p.1 with hsh | hsh
        · rw [hsh] at hv
          simp at hv
        · rw [hsh] at hv
          rw [List.mem_singleton] at hv
          subst hv
          exact Int.ofNat_le.mpr hstep_le
      · exact le_trans (Int.ofNat_le.mpr hstep_le) (ih2 v hv)
    · rw [errVals_append, List.chain'_append]
      refine ⟨?_, ih3, ?_⟩
      · rcases errVals_collectStep_shape c p.2 p.1 with hsh | hsh <;> rw [hsh] <;> simp
      · intro x hx y hy
        have hy' : y ∈ errVals (runPulls (collectStep c p.2 p.1).1 ps).2 :=
          List.mem_of_mem_head? hy
        have hx' : x = Int.ofNat (collectStep c p.2 p.1).1 := by
          rcases errVals_collectStep_shape c p.2 p.1 with hsh | hsh <;> rw [hsh] at hx
          · simp at hx
          · rw [List.getLast?_singleton] at hx
            exact (Option.some_inj.mp hx).symm
        rw [hx']
        exact ih2 y hy'

/-- Filtering the output of the emit-if-present primitive by a
descriptor: everything when the descriptors agree, nothing otherwise. -/
theorem filter_pushMetrics (d d' : Desc) (v : Option Nat) (ls : List String) :
    (pushMetrics d' v ls).filter (fun m => decide (m.desc = d)) =
      if d' = d then pushMetrics d' v ls else [] := by
  cases v <;> by_cases h : d' = d <;> simp [pushMetrics, h]

/-- A lookup misses when the key is absent from the document. -/
theorem jsonLookup_eq_none {α : Type} {doc : List (String × α)} {k : String}
    (h : k ∉ doc.map Prod.fst) : jsonLookup doc k = none := by
  rw [jsonLookup]
  induction doc with
  | nil => rfl
  | cons kv doc ih =>
    rw [List.map_cons, List.mem_cons] at h
    push_neg at h
    rw [List.foldl_cons, if_neg (fun hk => h.1 hk.symm)]
    exact ih h.2

/-- Each FsStats leaf decodes to the lookup of its JSON member name. -/
theorem get_decodeFsStats (f : FsField) (doc : List (String × Nat)) :
    f.get (decodeFsStats doc) = jsonLookup doc f.key := by
  cases f <;> rfl

/-- Conversion is exact up to 2^53. -/
theorem f64round_of_le {v : Nat} (h : v ≤ 2 ^ 53) : f64round v = v := by
  unfold f64round
  rw [if_pos h]

/-- No observation carries a descriptor that no emission site uses. -/
theorem countObs_eq_zero {d : Desc} {ms : List Metric} (h : ∀ m ∈ ms, m.desc ≠ d) :
    countObs d ms = 0 := by
  rw [countObs, List.length_eq_zero, List.filter_eq_nil_iff]
  intro m hm
  simp [h m hm]

/-- C1 counterexample: a parse-failure pull is a failed pull, yet the
counter stays at 0 and the emitted error value is 0, not 1: the claim
that every failed pull increments the counter by exactly one before
emission is false at this input. -/
theorem C1_counterexample :
    (collectStep 0 decodeFail (FetchOutcome.ok "not json")).1 = 0 ∧
    errVals (collectStep 0 decodeFail (FetchOutcome.ok "not json")).2 = [0] ∧
    ¬ (0 : Nat) + 1 = 0 := by
  refine ⟨rfl, by decide, by decide⟩

/-- C1 (amended): across any sequence of Collect invocations the
emitted error-counter values never decrease; transport, status, and
body-read failures increment the counter by exactly one and emit the
incremented value; a parse failure emits the current value without
incrementing it. -/
theorem C1_counter_monotone (c : Nat) (ps : List (FetchOutcome × Decoding)) (dec : Decoding) :
    List.Chain' (· ≤ ·) (errVals (runPulls c ps).2) ∧
    (collectStep c dec FetchOutcome.requestError).1 = c + 1 ∧
    errVals (collectStep c dec FetchOutcome.requestError).2 = [Int.ofNat (c + 1)] ∧
    (collectStep c dec FetchOutcome.statusError).1 = c + 1 ∧
    errVals (collectStep c dec FetchOutcome.statusError).2 = [Int.ofNat (c + 1)] ∧
    (collectStep c dec FetchOutcome.readBodyError).1 = c + 1 ∧
    errVals (collectStep c dec FetchOutcome.readBodyError).2 = [Int.ofNat (c + 1)] ∧
    (∀ b, dec b = Except.error () →
      (collectStep c dec (FetchOutcome.ok b)).1 = c ∧
      errVals (collectStep c dec (FetchOutcome.ok b)).2 = [Int.ofNat c]) := by
  refine ⟨(errVals_runPulls_mono c ps).2.2, rfl, ?_, rfl, ?_, rfl, ?_, ?_⟩
  · simp [collectStep, errVals, errMetric]
  · simp [collectStep, errVals, errMetric]
  · simp [collectStep, errVals, errMetric]
  · intro b hb
    constructor
    · simp [collectStep, hb]
    · simp [collectStep, hb, errVals, errMetric]

/-- Witness for C1: the amended statement applied to a concrete
two-pull sequence, with the parse-failure hypothesis discharged. -/
theorem C1_counter_monotone_witness :
    List.Chain' (· ≤ ·) (errVals (runPulls 0 [(FetchOutcome.requestError, decodeFail),
      (FetchOutcome.ok "x", decodeFail)]).2) ∧
    (collectStep 0 decodeFail (FetchOutcome.ok "x")).1 = 0 ∧
    errVals (collectStep 0 decodeFail (FetchOutcome.ok "x")).2 = [Int.ofNat 0] := by
  obtain ⟨h1, _, _, _, _, _, _, h8⟩ := C1_counter_monotone 0
    [(FetchOutcome.requestError, decodeFail), (FetchOutcome.ok "x", decodeFail)] decodeFail
  obtain ⟨h2, h3⟩ := h8 "x" rfl
  exact ⟨h1, h2, h3⟩

/-- C2 counterexample: a successful pull emits data observations but no
error-counter observation at all, so the counter is neither emitted
first on success nor re-emitted on every Collect call. -/
theorem C2_counterexample :
    errVals (collectStep 0 (decodeTo scenarioASummary) (FetchOutcome.ok "body")).2 = [] ∧
    (collectStep 0 (decodeTo scenarioASummary) (FetchOutcome.ok "body")).2 ≠ [] := by
  refine ⟨by decide, by decide⟩

/-- C2 (amended): on a successful pull Collect emits exactly the
Mapper-produced observations, leaves the counter unchanged, and does
not emit the error counter; the counter is emitted only on failed
pulls. -/
theorem C2_success_emissions (c : Nat) (dec : Decoding) (b : String) (s : Summary)
    (h : dec b = Except.ok s) :
    collectStep c dec (FetchOutcome.ok b) = (c, mapSummary s) ∧
    ∀ m ∈ mapSummary s, m.desc ≠ errorsDesc := by
  exact ⟨by simp [collectStep, h], fun m hm => (wf_mapSummary m hm).2.1⟩

/-- Witness for C2: the amended statement applied to a concrete
successful pull. -/
theorem C2_success_emissions_witness :
    collectStep 7 (decodeTo scenarioASummary) (FetchOutcome.ok "body") =
      (7, mapSummary scenarioASummary) ∧
    ∀ m ∈ mapSummary scenarioASummary, m.desc ≠ errorsDesc :=
  C2_success_emissions 7 (decodeTo scenarioASummary) "body" scenarioASummary rfl

/-- C3 counterexample: a pod-container accelerator observation places
the pod name at the descriptor position declared namespace: its label
values at positions 1 and 2 are the pod name and the namespace, in
that swapped order. -/
theorem C3_counterexample :
    (mapSummary (accelSnap "n1" "ns1" "pod1" "c1" "id1" "mo1" "ma1" 1 2 3)).map
        (fun m => m.labelValues) =
      [["n1", "pod1", "ns1", "c1", "id1", "mo1", "ma1"],
       ["n1", "pod1", "ns1", "c1", "id1", "mo1", "ma1"],
       ["n1", "pod1", "ns1", "c1", "id1", "mo1", "ma1"]] ∧
    (mapSummary (accelSnap "n1" "ns1" "pod1" "c1" "id1" "mo1" "ma1" 1 2 3)).map
        (fun m => m.desc) =
      [containerAcceleratorMemoryUsed, containerAcceleratorMemoryTotal,
       containerAcceleratorDutyCycle] ∧
    containerAcceleratorMemoryUsed.labels[1]? = some "namespace" ∧
    containerAcceleratorMemoryUsed.labels[2]? = some "pod" ∧
    ("pod1" : String) ≠ "ns1" := by
  refine ⟨by decide, by decide, by decide, by decide, by decide⟩

/-- C3 (amended): every emitted observation has exactly as many label
values as its descriptor declares, and the label values come from the
ownership path; but for pod-container accelerator observations the pod
name occupies the position declared namespace and the namespace the
position declared pod. -/
theorem C3_label_schema (s : Summary) :
    (∀ m ∈ mapSummary s, m.labelValues.length = m.desc.labels.length) ∧
    (∀ (n ns p cn aid amod amak : String) (mu mt dc : Nat),
      mapSummary (accelSnap n ns p cn aid amod amak mu mt dc) =
        [⟨containerAcceleratorMemoryUsed, ValueType.gauge, Int.ofNat (f64round mu),
          [n, p, ns, cn, aid, amod, amak]⟩,
         ⟨containerAcceleratorMemoryTotal, ValueType.gauge, Int.ofNat (f64round mt),
          [n, p, ns, cn, aid, amod, amak]⟩,
         ⟨containerAcceleratorDutyCycle, ValueType.gauge, Int.ofNat (f64round dc),
          [n, p, ns, cn, aid, amod, amak]⟩]) ∧
    containerAcceleratorMemoryUsed.labels =
      ["node", "namespace", "pod", "container", "id", "model", "make"] := by
  refine ⟨fun m hm => (wf_mapSummary m hm).1, ?_, rfl⟩
  intro n ns p cn aid amod amak mu mt dc
  rfl

/-- Witness for C3: the conformance clause applied to a concrete
observation of Scenario A. -/
theorem C3_label_schema_witness :
    (⟨containerRootFsUsedBytes, ValueType.gauge, 0,
      ["ip-172-20-125-125.ec2.internal", "kube-system", "aws-xray-daemon-bpmqx",
       "aws-xray-daemon"]⟩ : Metric).labelValues.length =
    (⟨containerRootFsUsedBytes, ValueType.gauge, 0,
      ["ip-172-20-125-125.ec2.internal", "kube-system", "aws-xray-daemon-bpmqx",
       "aws-xray-daemon"]⟩ : Metric).desc.labels.length :=
  (C3_label_schema scenarioASummary).1 _ (by decide)

/-- C4: the three major-page-fault descriptors outside the
system-container scope are declared and described, yet no traversal
site references them: a Summary whose node Memory has MajorPageFaults
present yields no observation at all, and no Summary ever yields an
observation under any of the three descriptors. -/
theorem C4_majorPageFaults_never_emitted :
    nodeMemoryMajorPageFaults ∈ describeList ∧
    podMemoryMajorPageFaults ∈ describeList ∧
    containerMemoryMajorPageFaults ∈ describeList ∧
    majorPfSnap.node.memory = some ⟨none, none, none, none, none, some 5⟩ ∧
    mapSummary majorPfSnap = [] ∧
    (∀ s : Summary,
      countObs nodeMemoryMajorPageFaults (mapSummary s) = 0 ∧
      countObs podMemoryMajorPageFaults (mapSummary s) = 0 ∧
      countObs containerMemoryMajorPageFaults (mapSummary s) = 0) := by
  refine ⟨by decide, by decide, by decide, rfl, rfl, ?_⟩
  intro s
  exact ⟨countObs_eq_zero (fun m hm => (wf_mapSummary m hm).2.2.1),
    countObs_eq_zero (fun m hm => (wf_mapSummary m hm).2.2.2.1),
    countObs_eq_zero (fun m hm => (wf_mapSummary m hm).2.2.2.2.1)⟩

/-- C6: when decoding fails, Collect emits exactly one metric, the
error counter labeled parse body error, and no data observations. -/
theorem C6_parse_failure (c : Nat) (dec : Decoding) (b : String)
    (h : dec b = Except.error ()) :
    collectStep c dec (FetchOutcome.ok b) = (c, [errMetric c "parse body error"]) := by
  simp [collectStep, h]

/-- Witness for C6: a concrete non-JSON body under the failing
decoder. -/
theorem C6_parse_failure_witness :
    collectStep 3 decodeFail (FetchOutcome.ok "not json") =
      (3, [errMetric 3 "parse body error"]) :=
  C6_parse_failure 3 decodeFail "not json" rfl

/-- C7: on a non-OK status Collect emits exactly one metric, the error
counter labeled status error carrying the incremented cumulative value,
and the result does not depend on the decoder, which is therefore never
consulted. -/
theorem C7_status_failure (c : Nat) (dec : Decoding) :
    collectStep c dec FetchOutcome.statusError =
      (c + 1, [errMetric (c + 1) "status error"]) ∧
    ∀ dec' : Decoding, collectStep c dec FetchOutcome.statusError =
      collectStep c dec' FetchOutcome.statusError :=
  ⟨rfl, fun _ => rfl⟩

/-- C8: Scenario A emits exactly two container-fs observations,
usage_bytes 0 and limit_bytes 107361579008, both labeled
(node, namespace, pod, container), and nothing else. -/
theorem C8_scenarioA :
    collectStep 0 (decodeTo scenarioASummary) (FetchOutcome.ok "body") =
      (0, [⟨containerRootFsUsedBytes, ValueType.gauge, 0,
            ["ip-172-20-125-125.ec2.internal", "kube-system", "aws-xray-daemon-bpmqx",
             "aws-xray-daemon"]⟩,
           ⟨containerRootFsAvailableBytes, ValueType.gauge, 107361579008,
            ["ip-172-20-125-125.ec2.internal", "kube-system", "aws-xray-daemon-bpmqx",
             "aws-xray-daemon"]⟩]) := by
  decide

/-- C9 counterexample: with both a node Fs leaf and a system-container
Rootfs leaf present, the system-container observation is emitted first,
so the claimed order (node Fs before SystemContainers) is false. -/
theorem C9_counterexample :
    (mapSummary orderSnap).map (fun m => m.desc) =
      [nodeSystemContainerRootFsUsedBytes, nodeFsUsedBytes] ∧
    nodeSystemContainerRootFsUsedBytes ≠ nodeFsUsedBytes := by
  refine ⟨by decide, by decide⟩

/-- C9 (amended): the traversal order is node SystemContainers first
(each: Fs, Logs, CPU, Memory, Swap, Accelerators), then node Fs,
Runtime.ImageFs, Runtime.ContainerFs, CPU, Memory, Swap, Rlimit,
Network interfaces, then the pods in Snapshot order (each: CPU, Memory,
Swap, EphemeralStorage, ProcessStats, VolumeStats, Network interfaces,
Containers). -/
theorem C9_traversal_order :
    (mapSummary fullOrderSnap).map (fun m => m.desc) =
      [nodeSystemContainerRootFsUsedBytes, nodeSystemContainerLogsUsedBytes,
       nodeSystemContainerCPUUsageNanoCores, nodeSystemContainerMemoryAvailableBytes,
       nodeSystemContainerSwapAvailableBytes, nodeSystemContainerAcceleratorMemoryUsed,
       nodeSystemContainerAcceleratorMemoryTotal, nodeSystemContainerAcceleratorDutyCycle,
       nodeFsUsedBytes, nodeRuntimeImageFsUsedBytes, nodeRuntimeContainerFsUsedBytes,
       nodeCPUUsageNanoCores, nodeMemoryAvailableBytes, nodeSwapAvailableBytes,
       nodeRLimitMaxPID, nodeInterfaceRxBytes,
       podCPUUsageNanoCores, podMemoryAvailableBytes, podSwapAvailableBytes,
       podEphemeralStorageUsedBytes, podProcessCount, podVolumeUsedBytes,
       podVolumeHealthStatus, podInterfaceRxBytes,
       containerRootFsUsedBytes, containerCPUUsageNanoCores,
       containerAcceleratorMemoryUsed, containerAcceleratorMemoryTotal,
       containerAcceleratorDutyCycle] := by
  decide

/-- C10 counterexample: a leaf of 2^54 is emitted exactly (2^54 is a
representable binary64 value) although 2^54 exceeds 2^53, so exactness
does not hold ONLY for leaves at most 2^53. -/
theorem C10_counterexample :
    mapSummary (c10snap (2 ^ 54)) =
      [⟨containerRootFsUsedBytes, ValueType.gauge, Int.ofNat (2 ^ 54),
        ["node", "ns", "pod", "ctr"]⟩] ∧
    2 ^ 53 < 2 ^ 54 := by
  refine ⟨by decide, by decide⟩

/-- C10 (amended): every data observation carries the float64 rounding
of an integer leaf; the conversion is exact whenever the leaf is at
most 2^53; and a volume-health observation carries 1 when abnormal and
0 otherwise. -/
theorem C10_values (s : Summary) :
    (∀ m ∈ mapSummary s, ∃ i : Int, m.value = f64roundInt i) ∧
    (∀ v : Nat, v ≤ 2 ^ 53 →
      mapSummary (c10snap v) =
        [⟨containerRootFsUsedBytes, ValueType.gauge, Int.ofNat v,
          ["node", "ns", "pod", "ctr"]⟩]) ∧
    (∀ b : Bool, mapSummary (healthSnap b) =
      [⟨podVolumeHealthStatus, ValueType.gauge, if b then 1 else 0,
        ["node", "ns", "pod", "vol"]⟩]) := by
  refine ⟨fun m hm => (wf_mapSummary m hm).2.2.2.2.2, ?_, ?_⟩
  · intro v hv
    have h : mapSummary (c10snap v) =
        [⟨containerRootFsUsedBytes, ValueType.gauge, Int.ofNat (f64round v),
          ["node", "ns", "pod", "ctr"]⟩] := rfl
    rw [h, f64round_of_le hv]
  · intro b
    cases b <;> rfl

/-- Witness for C10: the rounding clause at Scenario A and the
exactness clause at leaf 42. -/
theorem C10_values_witness :
    (∃ i : Int, (⟨containerRootFsUsedBytes, ValueType.gauge, 0,
      ["ip-172-20-125-125.ec2.internal", "kube-system", "aws-xray-daemon-bpmqx",
       "aws-xray-daemon"]⟩ : Metric).value = f64roundInt i) ∧
    mapSummary (c10snap 42) =
      [⟨containerRootFsUsedBytes, ValueType.gauge, 42, ["node", "ns", "pod", "ctr"]⟩] :=
  ⟨(C10_values scenarioASummary).1 _ (by decide),
   (C10_values scenarioASummary).2.1 42 (by decide)⟩

end KubeletSummary

namespace KubeletSummary

/-- Each CPU leaf decodes to the lookup of its JSON member name. -/
theorem get_decodeCPUStats (f : CpuField) (doc : List (String × Nat)) :
    CpuField.get f (decodeCPUStats doc) = jsonLookup doc f.key := by
  cases f <;> rfl

/-- Each Memory leaf decodes to the lookup of its JSON member name. -/
theorem get_decodeMemoryStats (f : MemField) (doc : List (String × Nat)) :
    MemField.get f (decodeMemoryStats doc) = jsonLookup doc f.key := by
  cases f <;> rfl

/-- Each Swap leaf decodes to the lookup of its JSON member name. -/
theorem get_decodeSwapStats (f : SwapField) (doc : List (String × Nat)) :
    SwapField.get f (decodeSwapStats doc) = jsonLookup doc f.key := by
  cases f <;> rfl

/-- Each Rlimit leaf decodes to the lookup of its JSON member name. -/
theorem get_decodeRlimitStats (f : RlimitField) (doc : List (String × Int)) :
    RlimitField.get f (decodeRlimitStats doc) = jsonLookup doc f.key := by
  cases f <;> rfl

/-- Each interface leaf decodes to the lookup of its JSON member name. -/
theorem get_decodeInterfaceStats (f : IfaceField) (nm : String) (doc : List (String × Nat)) :
    IfaceField.get f (decodeInterfaceStats nm doc) = jsonLookup doc f.key := by
  cases f <;> rfl

/-- Filtering a five-leaf FsStats group by the descriptor of one of its
leaves isolates exactly that leaf's emission, provided the five
descriptors are pairwise distinct. -/
theorem filter_mapFs5_sel (f : FsField) (d1 d2 d3 d4 d5 : Desc) {fs : FsStats}
    {ls : List String}
    (h : ∀ g : FsField, g ≠ f →
      FsField.sel g d1 d2 d3 d4 d5 ≠ FsField.sel f d1 d2 d3 d4 d5) :
    (mapFs5 d1 d2 d3 d4 d5 fs ls).filter
        (fun m => decide (m.desc = FsField.sel f d1 d2 d3 d4 d5)) =
      pushMetrics (FsField.sel f d1 d2 d3 d4 d5) (FsField.get f fs) ls := by
  cases f with
  | usedBytes =>
    have h2 : d2 ≠ d1 := h FsField.capacityBytes (by decide)
    have h3 : d3 ≠ d1 := h FsField.inodes (by decide)
    have h4 : d4 ≠ d1 := h FsField.inodesFree (by decide)
    have h5 : d5 ≠ d1 := h FsField.inodesUsed (by decide)
    simp only [mapFs5, FsField.sel, FsField.get, List.filter_append, filter_pushMetrics]
    simp [h2, h3, h4, h5]
  | capacityBytes =>
    have h1 : d1 ≠ d2 := h FsField.usedBytes (by decide)
    have h3 : d3 ≠ d2 := h FsField.inodes (by decide)
    have h4 : d4 ≠ d2 := h FsField.inodesFree (by decide)
    have h5 : d5 ≠ d2 := h FsField.inodesUsed (by decide)
    simp only [mapFs5, FsField.sel, FsField.get, List.filter_append, filter_pushMetrics]
    simp [h1, h3, h4, h5]
  | inodes =>
    have h1 : d1 ≠ d3 := h FsField.usedBytes (by decide)
    have h2 : d2 ≠ d3 := h FsField.capacityBytes (by decide)
    have h4 : d4 ≠ d3 := h FsField.inodesFree (by decide)
    have h5 : d5 ≠ d3 := h FsField.inodesUsed (by decide)
    simp only [mapFs5, FsField.sel, FsField.get, List.filter_append, filter_pushMetrics]
    simp [h1, h2, h4, h5]
  | inodesFree =>
    have h1 : d1 ≠ d4 := h FsField.usedBytes (by decide)
    have h2 : d2 ≠ d4 := h FsField.capacityBytes (by decide)
    have h3 : d3 ≠ d4 := h FsField.inodes (by decide)
    have h5 : d5 ≠ d4 := h FsField.inodesUsed (by decide)
    simp only [mapFs5, FsField.sel, FsField.get, List.filter_append, filter_pushMetrics]
    simp [h1, h2, h3, h5]
  | inodesUsed =>
    have h1 : d1 ≠ d5 := h FsField.usedBytes (by decide)
    have h2 : d2 ≠ d5 := h FsField.capacityBytes (by decide)
    have h3 : d3 ≠ d5 := h FsField.inodes (by decide)
    have h4 : d4 ≠ d5 := h FsField.inodesFree (by decide)
    simp only [mapFs5, FsField.sel, FsField.get, List.filter_append, filter_pushMetrics]
    simp [h1, h2, h3, h4]

/-- Filtering a CPU group by the descriptor of one of its two leaves. -/
theorem filter_mapCpu2_sel (f : CpuField) (d1 d2 : Desc) {c : CPUStats} {ls : List String}
    (h : ∀ g : CpuField, g ≠ f → CpuField.sel g d1 d2 ≠ CpuField.sel f d1 d2) :
    (mapCpu2 d1 d2 c ls).filter (fun m => decide (m.desc = CpuField.sel f d1 d2)) =
      pushMetrics (CpuField.sel f d1 d2) (CpuField.get f c) ls := by
  cases f with
  | usageNanoCores =>
    have h2 : d2 ≠ d1 := h CpuField.usageCoreNanoSeconds (by decide)
    simp only [mapCpu2, CpuField.sel, CpuField.get, List.filter_append, filter_pushMetrics]
    simp [h2]
  | usageCoreNanoSeconds =>
    have h1 : d1 ≠ d2 := h CpuField.usageNanoCores (by decide)
    simp only [mapCpu2, CpuField.sel, CpuField.get, List.filter_append, filter_pushMetrics]
    simp [h1]

/-- Filtering a Swap group by the descriptor of one of its two leaves. -/
theorem filter_mapSwap2_sel (f : SwapField) (d1 d2 : Desc) {sw : SwapStats} {ls : List String}
    (h : ∀ g : SwapField, g ≠ f → SwapField.sel g d1 d2 ≠ SwapField.sel f d1 d2) :
    (mapSwap2 d1 d2 sw ls).filter (fun m => decide (m.desc = SwapField.sel f d1 d2)) =
      pushMetrics (SwapField.sel f d1 d2) (SwapField.get f sw) ls := by
  cases f with
  | swapAvailableBytes =>
    have h2 : d2 ≠ d1 := h SwapField.swapUsageBytes (by decide)
    simp only [mapSwap2, SwapField.sel, SwapField.get, List.filter_append, filter_pushMetrics]
    simp [h2]
  | swapUsageBytes =>
    have h1 : d1 ≠ d2 := h SwapField.swapAvailableBytes (by decide)
    simp only [mapSwap2, SwapField.sel, SwapField.get, List.filter_append, filter_pushMetrics]
    simp [h1]

/-- Filtering a six-leaf system-container Memory group by the
descriptor of one of its leaves. -/
theorem filter_mapMem6_sel (f : MemField) (d1 d2 d3 d4 d5 d6 : Desc) {mm : MemoryStats}
    {ls : List String}
    (h : ∀ g : MemField, g ≠ f →
      MemField.sel g d1 d2 d3 d4 d5 d6 ≠ MemField.sel f d1 d2 d3 d4 d5 d6) :
    (mapMem6 d1 d2 d3 d4 d5 d6 mm ls).filter
        (fun m => decide (m.desc = MemField.sel f d1 d2 d3 d4 d5 d6)) =
      pushMetrics (MemField.sel f d1 d2 d3 d4 d5 d6) (MemField.get f mm) ls := by
  cases f with
  | availableBytes =>
    have h2 : d2 ≠ d1 := h MemField.usageBytes (by decide)
    have h3 : d3 ≠ d1 := h MemField.workingSetBytes (by decide)
    have h4 : d4 ≠ d1 := h MemField.rssBytes (by decide)
    have h5 : d5 ≠ d1 := h MemField.pageFaults (by decide)
    have h6 : d6 ≠ d1 := h MemField.majorPageFaults (by decide)
    simp only [mapMem6, MemField.sel, MemField.get, List.filter_append, filter_pushMetrics]
    simp [h2, h3, h4, h5, h6]
  | usageBytes =>
    have h1 : d1 ≠ d2 := h MemField.availableBytes (by decide)
    have h3 : d3 ≠ d2 := h MemField.workingSetBytes (by decide)
    have h4 : d4 ≠ d2 := h MemField.rssBytes (by decide)
    have h5 : d5 ≠ d2 := h MemField.pageFaults (by decide)
    have h6 : d6 ≠ d2 := h MemField.majorPageFaults (by decide)
    simp only [mapMem6, MemField.sel, MemField.get, List.filter_append, filter_pushMetrics]
    simp [h1, h3, h4, h5, h6]
  | workingSetBytes =>
    have h1 : d1 ≠ d3 := h MemField.availableBytes (by decide)
    have h2 : d2 ≠ d3 := h MemField.usageBytes (by decide)
    have h4 : d4 ≠ d3 := h MemField.rssBytes (by decide)
    have h5 : d5 ≠ d3 := h MemField.pageFaults (by decide)
    have h6 : d6 ≠ d3 := h MemField.majorPageFaults (by decide)
    simp only [mapMem6, MemField.sel, MemField.get, List.filter_append, filter_pushMetrics]
    simp [h1, h2, h4, h5, h6]
  | rssBytes =>
    have h1 : d1 ≠ d4 := h MemField.availableBytes (by decide)
    have h2 : d2 ≠ d4 := h MemField.usageBytes (by decide)
    have h3 : d3 ≠ d4 := h MemField.workingSetBytes (by decide)
    have h5 : d5 ≠ d4 := h MemField.pageFaults (by decide)
    have h6 : d6 ≠ d4 := h MemField.majorPageFaults (by decide)
    simp only [mapMem6, MemField.sel, MemField.get, List.filter_append, filter_pushMetrics]
    simp [h1, h2, h3, h5, h6]
  | pageFaults =>
    have h1 : d1 ≠ d5 := h MemField.availableBytes (by decide)
    have h2 : d2 ≠ d5 := h MemField.usageBytes (by decide)
    have h3 : d3 ≠ d5 := h MemField.workingSetBytes (by decide)
    have h4 : d4 ≠ d5 := h MemField.rssBytes (by decide)
    have h6 : d6 ≠ d5 := h MemField.majorPageFaults (by decide)
    simp only [mapMem6, MemField.sel, MemField.get, List.filter_append, filter_pushMetrics]
    simp [h1, h2, h3, h4, h6]
  | majorPageFaults =>
    have h1 : d1 ≠ d6 := h MemField.availableBytes (by decide)
    have h2 : d2 ≠ d6 := h MemField.usageBytes (by decide)
    have h3 : d3 ≠ d6 := h MemField.workingSetBytes (by decide)
    have h4 : d4 ≠ d6 := h MemField.rssBytes (by decide)
    have h5 : d5 ≠ d6 := h MemField.pageFaults (by decide)
    simp only [mapMem6, MemField.sel, MemField.get, List.filter_append, filter_pushMetrics]
    simp [h1, h2, h3, h4, h5]

/-- Filtering a five-leaf Memory group (node, pod, and pod-container
scope) by the descriptor of one of its five emitted leaves. -/
theorem filter_mapMem5_sel (f : MemField) (d1 d2 d3 d4 d5 d6 : Desc) {mm : MemoryStats}
    {ls : List String} (hf : f ≠ MemField.majorPageFaults)
    (h : ∀ g : MemField, g ≠ f →
      MemField.sel g d1 d2 d3 d4 d5 d6 ≠ MemField.sel f d1 d2 d3 d4 d5 d6) :
    (mapMem5 d1 d2 d3 d4 d5 mm ls).filter
        (fun m => decide (m.desc = MemField.sel f d1 d2 d3 d4 d5 d6)) =
      pushMetrics (MemField.sel f d1 d2 d3 d4 d5 d6) (MemField.get f mm) ls := by
  cases f with
  | availableBytes =>
    have h2 : d2 ≠ d1 := h MemField.usageBytes (by decide)
    have h3 : d3 ≠ d1 := h MemField.workingSetBytes (by decide)
    have h4 : d4 ≠ d1 := h MemField.rssBytes (by decide)
    have h5 : d5 ≠ d1 := h MemField.pageFaults (by decide)
    simp only [mapMem5, MemField.sel, MemField.get, List.filter_append, filter_pushMetrics]
    simp [h2, h3, h4, h5]
  | usageBytes =>
    have h1 : d1 ≠ d2 := h MemField.availableBytes (by decide)
    have h3 : d3 ≠ d2 := h MemField.workingSetBytes (by decide)
    have h4 : d4 ≠ d2 := h MemField.rssBytes (by decide)
    have h5 : d5 ≠ d2 := h MemField.pageFaults (by decide)
    simp only [mapMem5, MemField.sel, MemField.get, List.filter_append, filter_pushMetrics]
    simp [h1, h3, h4, h5]
  | workingSetBytes =>
    have h1 : d1 ≠ d3 := h MemField.availableBytes (by decide)
    have h2 : d2 ≠ d3 := h MemField.usageBytes (by decide)
    have h4 : d4 ≠ d3 := h MemField.rssBytes (by decide)
    have h5 : d5 ≠ d3 := h MemField.pageFaults (by decide)
    simp only [mapMem5, MemField.sel, MemField.get, List.filter_append, filter_pushMetrics]
    simp [h1, h2, h4, h5]
  | rssBytes =>
    have h1 : d1 ≠ d4 := h MemField.availableBytes (by decide)
    have h2 : d2 ≠ d4 := h MemField.usageBytes (by decide)
    have h3 : d3 ≠ d4 := h MemField.workingSetBytes (by decide)
    have h5 : d5 ≠ d4 := h MemField.pageFaults (by decide)
    simp only [mapMem5, MemField.sel, MemField.get, List.filter_append, filter_pushMetrics]
    simp [h1, h2, h3, h5]
  | pageFaults =>
    have h1 : d1 ≠ d5 := h MemField.availableBytes (by decide)
    have h2 : d2 ≠ d5 := h MemField.usageBytes (by decide)
    have h3 : d3 ≠ d5 := h MemField.workingSetBytes (by decide)
    have h4 : d4 ≠ d5 := h MemField.rssBytes (by decide)
    simp only [mapMem5, MemField.sel, MemField.get, List.filter_append, filter_pushMetrics]
    simp [h1, h2, h3, h4]
  | majorPageFaults => exact absurd rfl hf

/-- A five-leaf Memory group contains nothing under the MajorPageFaults
descriptor: the Mapper never pushes that leaf at these scopes. -/
theorem filter_mapMem5_major {d1 d2 d3 d4 d5 dMaj : Desc} {mm : MemoryStats}
    {ls : List String} (h1 : d1 ≠ dMaj) (h2 : d2 ≠ dMaj) (h3 : d3 ≠ dMaj)
    (h4 : d4 ≠ dMaj) (h5 : d5 ≠ dMaj) :
    (mapMem5 d1 d2 d3 d4 d5 mm ls).filter (fun m => decide (m.desc = dMaj)) = [] := by
  simp only [mapMem5, List.filter_append, filter_pushMetrics]
  simp [h1, h2, h3, h4, h5]

/-- Filtering an interface group by the descriptor of one of its four
leaves. -/
theorem filter_mapIface4_sel (f : IfaceField) (d1 d2 d3 d4 : Desc) {i : InterfaceStats}
    {base : List String}
    (h : ∀ g : IfaceField, g ≠ f → IfaceField.sel g d1 d2 d3 d4 ≠ IfaceField.sel f d1 d2 d3 d4) :
    (mapIface4 d1 d2 d3 d4 i base).filter
        (fun m => decide (m.desc = IfaceField.sel f d1 d2 d3 d4)) =
      pushMetrics (IfaceField.sel f d1 d2 d3 d4) (IfaceField.get f i) (base ++ [i.name]) := by
  cases f with
  | rxBytes =>
    have h2 : d2 ≠ d1 := h IfaceField.rxErrors (by decide)
    have h3 : d3 ≠ d1 := h IfaceField.txBytes (by decide)
    have h4 : d4 ≠ d1 := h IfaceField.txErrors (by decide)
    simp only [mapIface4, IfaceField.sel, IfaceField.get, List.filter_append, filter_pushMetrics]
    simp [h2, h3, h4]
  | rxErrors =>
    have h1 : d1 ≠ d2 := h IfaceField.rxBytes (by decide)
    have h3 : d3 ≠ d2 := h IfaceField.txBytes (by decide)
    have h4 : d4 ≠ d2 := h IfaceField.txErrors (by decide)
    simp only [mapIface4, IfaceField.sel, IfaceField.get, List.filter_append, filter_pushMetrics]
    simp [h1, h3, h4]
  | txBytes =>
    have h1 : d1 ≠ d3 := h IfaceField.rxBytes (by decide)
    have h2 : d2 ≠ d3 := h IfaceField.rxErrors (by decide)
    have h4 : d4 ≠ d3 := h IfaceField.txErrors (by decide)
    simp only [mapIface4, IfaceField.sel, IfaceField.get, List.filter_append, filter_pushMetrics]
    simp [h1, h2, h4]
  | txErrors =>
    have h1 : d1 ≠ d4 := h IfaceField.rxBytes (by decide)
    have h2 : d2 ≠ d4 := h IfaceField.rxErrors (by decide)
    have h3 : d3 ≠ d4 := h IfaceField.txBytes (by decide)
    simp only [mapIface4, IfaceField.sel, IfaceField.get, List.filter_append, filter_pushMetrics]
    simp [h1, h2, h3]

/-- Filtering the Rlimit block by the descriptor of one of its two
leaves isolates that leaf's emission, with its float64-converted
value. -/
theorem filter_mapRlimit (f : RlimitField) {r : RlimitStats} {ls : List String} :
    (mapRlimit r ls).filter (fun m => decide (m.desc = RlimitField.desc f)) =
      match RlimitField.get f r with
      | some v => [⟨RlimitField.desc f, ValueType.gauge, f64roundInt v, ls⟩]
      | none => [] := by
  obtain ⟨mp, np⟩ := r
  cases f <;> cases mp <;> cases np <;>
    simp [mapRlimit, RlimitField.desc, RlimitField.get, nodeRLimitMaxPID,
      nodeRLimitNumOfRunningProcess]

end KubeletSummary

namespace KubeletSummary

/-- Absence preservation for one FsStats group instance: parametrized
over the five descriptors, the family snapshot, and its labels. -/
theorem C5_fs_aux (d1 d2 d3 d4 d5 : Desc) (snap : FsStats → Summary) (ls : List String)
    (hdist : ∀ g f : FsField, g ≠ f →
      FsField.sel g d1 d2 d3 d4 d5 ≠ FsField.sel f d1 d2 d3 d4 d5)
    (hred : ∀ fs, mapSummary (snap fs) = mapFs5 d1 d2 d3 d4 d5 fs ls)
    (f : FsField) (docA docZ : List (String × Nat))
    (hA : f.key ∉ docA.map Prod.fst) (hZ : jsonLookup docZ f.key = some 0) :
    (FsField.get f (decodeFsStats docA) = none ∧
      countObs (FsField.sel f d1 d2 d3 d4 d5) (mapSummary (snap (decodeFsStats docA))) = 0) ∧
    (FsField.get f (decodeFsStats docZ) = some 0 ∧
      (mapSummary (snap (decodeFsStats docZ))).filter
          (fun m => decide (m.desc = FsField.sel f d1 d2 d3 d4 d5)) =
        [⟨FsField.sel f d1 d2 d3 d4 d5, ValueType.gauge, 0, ls⟩]) := by
  have hgA : FsField.get f (decodeFsStats docA) = none :=
    (get_decodeFsStats f docA).trans (jsonLookup_eq_none hA)
  have hgZ : FsField.get f (decodeFsStats docZ) = some 0 :=
    (get_decodeFsStats f docZ).trans hZ
  refine ⟨⟨hgA, ?_⟩, ⟨hgZ, ?_⟩⟩
  · rw [countObs, hred, filter_mapFs5_sel f d1 d2 d3 d4 d5 (fun g hg => hdist g f hg), hgA]
    rfl
  · rw [hred, filter_mapFs5_sel f d1 d2 d3 d4 d5 (fun g hg => hdist g f hg), hgZ]
    simp [pushMetrics, f64round_of_le (Nat.zero_le (2 ^ 53))]

/-- Absence preservation for one CPU group instance. -/
theorem C5_cpu_aux (d1 d2 : Desc) (snap : CPUStats → Summary) (ls : List String)
    (hdist : ∀ g f : CpuField, g ≠ f → CpuField.sel g d1 d2 ≠ CpuField.sel f d1 d2)
    (hred : ∀ c, mapSummary (snap c) = mapCpu2 d1 d2 c ls)
    (f : CpuField) (docA docZ : List (String × Nat))
    (hA : f.key ∉ docA.map Prod.fst) (hZ : jsonLookup docZ f.key = some 0) :
    (CpuField.get f (decodeCPUStats docA) = none ∧
      countObs (CpuField.sel f d1 d2) (mapSummary (snap (decodeCPUStats docA))) = 0) ∧
    (CpuField.get f (decodeCPUStats docZ) = some 0 ∧
      (mapSummary (snap (decodeCPUStats docZ))).filter
          (fun m => decide (m.desc = CpuField.sel f d1 d2)) =
        [⟨CpuField.sel f d1 d2, ValueType.gauge, 0, ls⟩]) := by
  have hgA : CpuField.get f (decodeCPUStats docA) = none :=
    (get_decodeCPUStats f docA).trans (jsonLookup_eq_none hA)
  have hgZ : CpuField.get f (decodeCPUStats docZ) = some 0 :=
    (get_decodeCPUStats f docZ).trans hZ
  refine ⟨⟨hgA, ?_⟩, ⟨hgZ, ?_⟩⟩
  · rw [countObs, hred, filter_mapCpu2_sel f d1 d2 (fun g hg => hdist g f hg), hgA]
    rfl
  · rw [hred, filter_mapCpu2_sel f d1 d2 (fun g hg => hdist g f hg), hgZ]
    simp [pushMetrics, f64round_of_le (Nat.zero_le (2 ^ 53))]

/-- Absence preservation for one Swap group instance. -/
theorem C5_swap_aux (d1 d2 : Desc) (snap : SwapStats → Summary) (ls : List String)
    (hdist : ∀ g f : SwapField, g ≠ f → SwapField.sel g d1 d2 ≠ SwapField.sel f d1 d2)
    (hred : ∀ sw, mapSummary (snap sw) = mapSwap2 d1 d2 sw ls)
    (f : SwapField) (docA docZ : List (String × Nat))
    (hA : f.key ∉ docA.map Prod.fst) (hZ : jsonLookup docZ f.key = some 0) :
    (SwapField.get f (decodeSwapStats docA) = none ∧
      countObs (SwapField.sel f d1 d2) (mapSummary (snap (decodeSwapStats docA))) = 0) ∧
    (SwapField.get f (decodeSwapStats docZ) = some 0 ∧
      (mapSummary (snap (decodeSwapStats docZ))).filter
          (fun m => decide (m.desc = SwapField.sel f d1 d2)) =
        [⟨SwapField.sel f d1 d2, ValueType.gauge, 0, ls⟩]) := by
  have hgA : SwapField.get f (decodeSwapStats docA) = none :=
    (get_decodeSwapStats f docA).trans (jsonLookup_eq_none hA)
  have hgZ : SwapField.get f (decodeSwapStats docZ) = some 0 :=
    (get_decodeSwapStats f docZ).trans hZ
  refine ⟨⟨hgA, ?_⟩, ⟨hgZ, ?_⟩⟩
  · rw [countObs, hred, filter_mapSwap2_sel f d1 d2 (fun g hg => hdist g f hg), hgA]
    rfl
  · rw [hred, filter_mapSwap2_sel f d1 d2 (fun g hg => hdist g f hg), hgZ]
    simp [pushMetrics, f64round_of_le (Nat.zero_le (2 ^ 53))]

/-- Absence preservation for the six-leaf system-container Memory
group. -/
theorem C5_mem6_aux (d1 d2 d3 d4 d5 d6 : Desc) (snap : MemoryStats → Summary)
    (ls : List String)
    (hdist : ∀ g f : MemField, g ≠ f →
      MemField.sel g d1 d2 d3 d4 d5 d6 ≠ MemField.sel f d1 d2 d3 d4 d5 d6)
    (hred : ∀ mm, mapSummary (snap mm) = mapMem6 d1 d2 d3 d4 d5 d6 mm ls)
    (f : MemField) (docA docZ : List (String × Nat))
    (hA : f.key ∉ docA.map Prod.fst) (hZ : jsonLookup docZ f.key = some 0) :
    (MemField.get f (decodeMemoryStats docA) = none ∧
      countObs (MemField.sel f d1 d2 d3 d4 d5 d6)
        (mapSummary (snap (decodeMemoryStats docA))) = 0) ∧
    (MemField.get f (decodeMemoryStats docZ) = some 0 ∧
      (mapSummary (snap (decodeMemoryStats docZ))).filter
          (fun m => decide (m.desc = MemField.sel f d1 d2 d3 d4 d5 d6)) =
        [⟨MemField.sel f d1 d2 d3 d4 d5 d6, ValueType.gauge, 0, ls⟩]) := by
  have hgA : MemField.get f (decodeMemoryStats docA) = none :=
    (get_decodeMemoryStats f docA).trans (jsonLookup_eq_none hA)
  have hgZ : MemField.get f (decodeMemoryStats docZ) = some 0 :=
    (get_decodeMemoryStats f docZ).trans hZ
  refine ⟨⟨hgA, ?_⟩, ⟨hgZ, ?_⟩⟩
  · rw [countObs, hred, filter_mapMem6_sel f d1 d2 d3 d4 d5 d6 (fun g hg => hdist g f hg), hgA]
    rfl
  · rw [hred, filter_mapMem6_sel f d1 d2 d3 d4 d5 d6 (fun g hg => hdist g f hg), hgZ]
    simp [pushMetrics, f64round_of_le (Nat.zero_le (2 ^ 53))]

/-- Absence preservation for the five emitted leaves of a Memory group
at node, pod, or pod-container scope. -/
theorem C5_mem5_aux (d1 d2 d3 d4 d5 d6 : Desc) (snap : MemoryStats → Summary)
    (ls : List String)
    (hdist : ∀ g f : MemField, g ≠ f →
      MemField.sel g d1 d2 d3 d4 d5 d6 ≠ MemField.sel f d1 d2 d3 d4 d5 d6)
    (hred : ∀ mm, mapSummary (snap mm) = mapMem5 d1 d2 d3 d4 d5 mm ls)
    (f : MemField) (hf : f ≠ MemField.majorPageFaults) (docA docZ : List (String × Nat))
    (hA : f.key ∉ docA.map Prod.fst) (hZ : jsonLookup docZ f.key = some 0) :
    (MemField.get f (decodeMemoryStats docA) = none ∧
      countObs (MemField.sel f d1 d2 d3 d4 d5 d6)
        (mapSummary (snap (decodeMemoryStats docA))) = 0) ∧
    (MemField.get f (decodeMemoryStats docZ) = some 0 ∧
      (mapSummary (snap (decodeMemoryStats docZ))).filter
          (fun m => decide (m.desc = MemField.sel f d1 d2 d3 d4 d5 d6)) =
        [⟨MemField.sel f d1 d2 d3 d4 d5 d6, ValueType.gauge, 0, ls⟩]) := by
  have hgA : MemField.get f (decodeMemoryStats docA) = none :=
    (get_decodeMemoryStats f docA).trans (jsonLookup_eq_none hA)
  have hgZ : MemField.get f (decodeMemoryStats docZ) = some 0 :=
    (get_decodeMemoryStats f docZ).trans hZ
  refine ⟨⟨hgA, ?_⟩, ⟨hgZ, ?_⟩⟩
  · rw [countObs, hred,
      filter_mapMem5_sel f d1 d2 d3 d4 d5 d6 hf (fun g hg => hdist g f hg), hgA]
    rfl
  · rw [hred, filter_mapMem5_sel f d1 d2 d3 d4 d5 d6 hf (fun g hg => hdist g f hg), hgZ]
    simp [pushMetrics, f64round_of_le (Nat.zero_le (2 ^ 53))]

/-- The MajorPageFaults leaf at node, pod, or pod-container scope:
decode preserves absence and the explicit zero, but the Mapper emits no
observation in either case, because no push site references the
descriptor. -/
theorem C5_mem5_major_aux (d1 d2 d3 d4 d5 dMaj : Desc) (snap : MemoryStats → Summary)
    (ls : List String)
    (h1 : d1 ≠ dMaj) (h2 : d2 ≠ dMaj) (h3 : d3 ≠ dMaj) (h4 : d4 ≠ dMaj) (h5 : d5 ≠ dMaj)
    (hred : ∀ mm, mapSummary (snap mm) = mapMem5 d1 d2 d3 d4 d5 mm ls)
    (docA docZ : List (String × Nat))
    (hA : "majorPageFaults" ∉ docA.map Prod.fst)
    (hZ : jsonLookup docZ "majorPageFaults" = some 0) :
    ((decodeMemoryStats docA).majorPageFaults = none ∧
      countObs dMaj (mapSummary (snap (decodeMemoryStats docA))) = 0) ∧
    ((decodeMemoryStats docZ).majorPageFaults = some 0 ∧
      countObs dMaj (mapSummary (snap (decodeMemoryStats docZ))) = 0) := by
  refine ⟨⟨jsonLookup_eq_none hA, ?_⟩, ⟨hZ, ?_⟩⟩
  · rw [countObs, hred, filter_mapMem5_major h1 h2 h3 h4 h5]
    rfl
  · rw [countObs, hred, filter_mapMem5_major h1 h2 h3 h4 h5]
    rfl

/-- Absence preservation for one network-interface instance. -/
theorem C5_iface_aux (d1 d2 d3 d4 : Desc) (snap : InterfaceStats → Summary)
    (base : List String)
    (hdist : ∀ g f : IfaceField, g ≠ f →
      IfaceField.sel g d1 d2 d3 d4 ≠ IfaceField.sel f d1 d2 d3 d4)
    (hred : ∀ i, mapSummary (snap i) = mapIface4 d1 d2 d3 d4 i base)
    (f : IfaceField) (docA docZ : List (String × Nat))
    (hA : f.key ∉ docA.map Prod.fst) (hZ : jsonLookup docZ f.key = some 0) :
    (IfaceField.get f (decodeInterfaceStats "eth0" docA) = none ∧
      countObs (IfaceField.sel f d1 d2 d3 d4)
        (mapSummary (snap (decodeInterfaceStats "eth0" docA))) = 0) ∧
    (IfaceField.get f (decodeInterfaceStats "eth0" docZ) = some 0 ∧
      (mapSummary (snap (decodeInterfaceStats "eth0" docZ))).filter
          (fun m => decide (m.desc = IfaceField.sel f d1 d2 d3 d4)) =
        [⟨IfaceField.sel f d1 d2 d3 d4, ValueType.gauge, 0, base ++ ["eth0"]⟩]) := by
  have hgA : IfaceField.get f (decodeInterfaceStats "eth0" docA) = none :=
    (get_decodeInterfaceStats f "eth0" docA).trans (jsonLookup_eq_none hA)
  have hgZ : IfaceField.get f (decodeInterfaceStats "eth0" docZ) = some 0 :=
    (get_decodeInterfaceStats f "eth0" docZ).trans hZ
  refine ⟨⟨hgA, ?_⟩, ⟨hgZ, ?_⟩⟩
  · rw [countObs, hred, filter_mapIface4_sel f d1 d2 d3 d4 (fun g hg => hdist g f hg), hgA]
    rfl
  · rw [hred, filter_mapIface4_sel f d1 d2 d3 d4 (fun g hg => hdist g f hg), hgZ]
    simp [pushMetrics, decodeInterfaceStats, f64round_of_le (Nat.zero_le (2 ^ 53))]

end KubeletSummary

namespace KubeletSummary

/-- Absence preservation across all nine FsStats group instances. -/
theorem absenceFs : ∀ (sc : FsScope) (f : FsField) (docA docZ : List (String × Nat)),
    f.key ∉ docA.map Prod.fst → jsonLookup docZ f.key = some 0 →
    (FsField.get f (decodeFsStats docA) = none ∧
      countObs (fsDesc sc f) (mapSummary (fsSnap sc (decodeFsStats docA))) = 0) ∧
    (FsField.get f (decodeFsStats docZ) = some 0 ∧
      (mapSummary (fsSnap sc (decodeFsStats docZ))).filter
          (fun m => decide (m.desc = fsDesc sc f)) =
        [⟨fsDesc sc f, ValueType.gauge, 0, fsLabels sc⟩]) := by
  intro sc f docA docZ hA hZ
  cases sc with
  | nodeFs =>
    exact C5_fs_aux nodeFsUsedBytes nodeFsAvailableBytes nodeFsInodes nodeFsInodesFree
      nodeFsInodesUsed (fsSnap FsScope.nodeFs) ["node"] (by decide)
      (fun fs => by simp [fsSnap, soloNode, mapSummary, mapNodeAfterSystemContainers,
        Option.elim]) f docA docZ hA hZ
  | imageFs =>
    exact C5_fs_aux nodeRuntimeImageFsUsedBytes nodeRuntimeImageFsAvailableBytes
      nodeRuntimeImageFsInodes nodeRuntimeImageFsInodesFree nodeRuntimeImageFsInodesUsed
      (fsSnap FsScope.imageFs) ["node"] (by decide)
      (fun fs => by simp [fsSnap, soloNode, mapSummary, mapNodeAfterSystemContainers,
        Option.elim]) f docA docZ hA hZ
  | containerFs =>
    exact C5_fs_aux nodeRuntimeContainerFsUsedBytes nodeRuntimeContainerFsAvailableBytes
      nodeRuntimeContainerFsInodes nodeRuntimeContainerFsInodesFree
      nodeRuntimeContainerFsInodesUsed (fsSnap FsScope.containerFs) ["node"] (by decide)
      (fun fs => by simp [fsSnap, soloNode, mapSummary, mapNodeAfterSystemContainers,
        Option.elim]) f docA docZ hA hZ
  | sysRootfs =>
    exact C5_fs_aux nodeSystemContainerRootFsUsedBytes nodeSystemContainerRootFsAvailableBytes
      nodeSystemContainerRootFsInodes nodeSystemContainerRootFsInodesFree
      nodeSystemContainerRootFsInodesUsed (fsSnap FsScope.sysRootfs) ["node", "sys"]
      (by decide)
      (fun fs => by simp [fsSnap, soloSys, mapSummary, mapSystemContainer,
        mapNodeAfterSystemContainers, Option.elim]) f docA docZ hA hZ
  | sysLogs =>
    exact C5_fs_aux nodeSystemContainerLogsUsedBytes nodeSystemContainerLogsAvailableBytes
      nodeSystemContainerLogsInodes nodeSystemContainerLogsInodesFree
      nodeSystemContainerLogsInodesUsed (fsSnap FsScope.sysLogs) ["node", "sys"] (by decide)
      (fun fs => by simp [fsSnap, soloSys, mapSummary, mapSystemContainer,
        mapNodeAfterSystemContainers, Option.elim]) f docA docZ hA hZ
  | podEphemeral =>
    exact C5_fs_aux podEphemeralStorageUsedBytes podEphemeralStorageAvailableBytes
      podEphemeralStorageInodes podEphemeralStorageInodesFree podEphemeralStorageInodesUsed
      (fsSnap FsScope.podEphemeral) ["node", "ns", "pod"] (by decide)
      (fun fs => by simp [fsSnap, soloPod, emptyNode, mapSummary, mapPod,
        mapNodeAfterSystemContainers, Option.elim]) f docA docZ hA hZ
  | podVolume =>
    exact C5_fs_aux podVolumeUsedBytes podVolumeAvailableBytes podVolumeInodes
      podVolumeInodesFree podVolumeInodesUsed (fsSnap FsScope.podVolume)
      ["node", "ns", "pod", "vol"] (by decide)
      (fun fs => by simp [fsSnap, soloPod, emptyNode, mapSummary, mapPod, mapVolume,
        mapNodeAfterSystemContainers, Option.elim]) f docA docZ hA hZ
  | ctrRootfs =>
    exact C5_fs_aux containerRootFsUsedBytes containerRootFsAvailableBytes
      containerRootFsInodes containerRootFsInodesFree containerRootFsInodesUsed
      (fsSnap FsScope.ctrRootfs) ["node", "ns", "pod", "ctr"] (by decide)
      (fun fs => by simp [fsSnap, soloCtr, soloPod, emptyNode, mapSummary, mapPod,
        mapPodContainer, mapNodeAfterSystemContainers, Option.elim]) f docA docZ hA hZ
  | ctrLogs =>
    exact C5_fs_aux containerLogsUsedBytes containerLogsAvailableBytes containerLogsInodes
      containerLogsInodesFree containerLogsInodesUsed (fsSnap FsScope.ctrLogs)
      ["node", "ns", "pod", "ctr"] (by decide)
      (fun fs => by simp [fsSnap, soloCtr, soloPod, emptyNode, mapSummary, mapPod,
        mapPodContainer, mapNodeAfterSystemContainers, Option.elim]) f docA docZ hA hZ

end KubeletSummary

namespace KubeletSummary

/-- Absence preservation across all four CPU group instances. -/
theorem absenceCpu : ∀ (sc : CpuScope) (f : CpuField) (docA docZ : List (String × Nat)),
    f.key ∉ docA.map Prod.fst → jsonLookup docZ f.key = some 0 →
    (CpuField.get f (decodeCPUStats docA) = none ∧
      countObs (cpuDesc sc f) (mapSummary (cpuSnap sc (decodeCPUStats docA))) = 0) ∧
    (CpuField.get f (decodeCPUStats docZ) = some 0 ∧
      (mapSummary (cpuSnap sc (decodeCPUStats docZ))).filter
          (fun m => decide (m.desc = cpuDesc sc f)) =
        [⟨cpuDesc sc f, ValueType.gauge, 0, cpuLabels sc⟩]) := by
  intro sc f docA docZ hA hZ
  cases sc with
  | node =>
    exact C5_cpu_aux nodeCPUUsageNanoCores nodeCPUUsageCoreNanoSeconds
      (cpuSnap CpuScope.node) ["node"] (by decide)
      (fun c => by simp [cpuSnap, soloNode, mapSummary, mapNodeAfterSystemContainers,
        Option.elim]) f docA docZ hA hZ
  | sysCont =>
    exact C5_cpu_aux nodeSystemContainerCPUUsageNanoCores
      nodeSystemContainerCPUUsageCoreNanoSeconds (cpuSnap CpuScope.sysCont) ["node", "sys"]
      (by decide)
      (fun c => by simp [cpuSnap, soloSys, mapSummary, mapSystemContainer,
        mapNodeAfterSystemContainers, Option.elim]) f docA docZ hA hZ
  | pod =>
    exact C5_cpu_aux podCPUUsageNanoCores podCPUUsageCoreNanoSeconds (cpuSnap CpuScope.pod)
      ["node", "ns", "pod"] (by decide)
      (fun c => by simp [cpuSnap, soloPod, emptyNode, mapSummary, mapPod,
        mapNodeAfterSystemContainers, Option.elim]) f docA docZ hA hZ
  | ctr =>
    exact C5_cpu_aux containerCPUUsageNanoCores containerCPUUsageCoreNanoSeconds
      (cpuSnap CpuScope.ctr) ["node", "ns", "pod", "ctr"] (by decide)
      (fun c => by simp [cpuSnap, soloCtr, soloPod, emptyNode, mapSummary, mapPod,
        mapPodContainer, mapNodeAfterSystemContainers, Option.elim]) f docA docZ hA hZ

/-- Absence preservation for all six leaves of the system-container
Memory group, the one scope whose MajorPageFaults leaf is emitted. -/
theorem absenceSysMem : ∀ (f : MemField) (docA docZ : List (String × Nat)),
    f.key ∉ docA.map Prod.fst → jsonLookup docZ f.key = some 0 →
    (MemField.get f (decodeMemoryStats docA) = none ∧
      countObs (sysMemDesc f) (mapSummary (sysMemSnap (decodeMemoryStats docA))) = 0) ∧
    (MemField.get f (decodeMemoryStats docZ) = some 0 ∧
      (mapSummary (sysMemSnap (decodeMemoryStats docZ))).filter
          (fun m => decide (m.desc = sysMemDesc f)) =
        [⟨sysMemDesc f, ValueType.gauge, 0, ["node", "sys"]⟩]) := by
  intro f docA docZ hA hZ
  exact C5_mem6_aux nodeSystemContainerMemoryAvailableBytes
    nodeSystemContainerMemoryUsageBytes nodeSystemContainerMemoryWorkingSetBytes
    nodeSystemContainerMemoryRSSBytes nodeSystemContainerMemoryPageFaults
    nodeSystemContainerMemoryMajorPageFaults sysMemSnap ["node", "sys"] (by decide)
    (fun mm => by simp [sysMemSnap, soloSys, mapSummary, mapSystemContainer,
      mapNodeAfterSystemContainers, Option.elim]) f docA docZ hA hZ

/-- Absence preservation for the five emitted Memory leaves at node,
pod, and pod-container scope. -/
theorem absenceMem : ∀ (sc : Mem5Scope) (f : MemField), f ≠ MemField.majorPageFaults →
    ∀ (docA docZ : List (String × Nat)),
    f.key ∉ docA.map Prod.fst → jsonLookup docZ f.key = some 0 →
    (MemField.get f (decodeMemoryStats docA) = none ∧
      countObs (mem5Desc sc f) (mapSummary (mem5Snap sc (decodeMemoryStats docA))) = 0) ∧
    (MemField.get f (decodeMemoryStats docZ) = some 0 ∧
      (mapSummary (mem5Snap sc (decodeMemoryStats docZ))).filter
          (fun m => decide (m.desc = mem5Desc sc f)) =
        [⟨mem5Desc sc f, ValueType.gauge, 0, mem5Labels sc⟩]) := by
  intro sc f hf docA docZ hA hZ
  cases sc with
  | node =>
    exact C5_mem5_aux nodeMemoryAvailableBytes nodeMemoryUsageBytes
      nodeMemoryWorkingSetBytes nodeMemoryRSSBytes nodeMemoryPageFaults
      nodeMemoryMajorPageFaults (mem5Snap Mem5Scope.node) ["node"] (by decide)
      (fun mm => by simp [mem5Snap, soloNode, mapSummary, mapNodeAfterSystemContainers,
        Option.elim]) f hf docA docZ hA hZ
  | pod =>
    exact C5_mem5_aux podMemoryAvailableBytes podMemoryUsageBytes podMemoryWorkingSetBytes
      podMemoryRSSBytes podMemoryPageFaults podMemoryMajorPageFaults
      (mem5Snap Mem5Scope.pod) ["node", "ns", "pod"] (by decide)
      (fun mm => by simp [mem5Snap, soloPod, emptyNode, mapSummary, mapPod,
        mapNodeAfterSystemContainers, Option.elim]) f hf docA docZ hA hZ
  | ctr =>
    exact C5_mem5_aux containerMemoryAvailableBytes containerMemoryUsageBytes
      containerMemoryWorkingSetBytes containerMemoryRSSBytes containerMemoryPageFaults
      containerMemoryMajorPageFaults (mem5Snap Mem5Scope.ctr) ["node", "ns", "pod", "ctr"]
      (by decide)
      (fun mm => by simp [mem5Snap, soloCtr, soloPod, emptyNode, mapSummary, mapPod,
        mapPodContainer, mapNodeAfterSystemContainers, Option.elim]) f hf docA docZ hA hZ

/-- The MajorPageFaults leaf at node, pod, and pod-container scope:
decoding preserves both absence and the explicit zero, yet the Mapper
emits no observation in either case. -/
theorem absenceMemMajor : ∀ (sc : Mem5Scope) (docA docZ : List (String × Nat)),
    "majorPageFaults" ∉ docA.map Prod.fst → jsonLookup docZ "majorPageFaults" = some 0 →
    ((decodeMemoryStats docA).majorPageFaults = none ∧
      countObs (mem5Desc sc MemField.majorPageFaults)
        (mapSummary (mem5Snap sc (decodeMemoryStats docA))) = 0) ∧
    ((decodeMemoryStats docZ).majorPageFaults = some 0 ∧
      countObs (mem5Desc sc MemField.majorPageFaults)
        (mapSummary (mem5Snap sc (decodeMemoryStats docZ))) = 0) := by
  intro sc docA docZ hA hZ
  cases sc with
  | node =>
    exact C5_mem5_major_aux nodeMemoryAvailableBytes nodeMemoryUsageBytes
      nodeMemoryWorkingSetBytes nodeMemoryRSSBytes nodeMemoryPageFaults
      nodeMemoryMajorPageFaults (mem5Snap Mem5Scope.node) ["node"]
      (by decide) (by decide) (by decide) (by decide) (by decide)
      (fun mm => by simp [mem5Snap, soloNode, mapSummary, mapNodeAfterSystemContainers,
        Option.elim]) docA docZ hA hZ
  | pod =>
    exact C5_mem5_major_aux podMemoryAvailableBytes podMemoryUsageBytes
      podMemoryWorkingSetBytes podMemoryRSSBytes podMemoryPageFaults
      podMemoryMajorPageFaults (mem5Snap Mem5Scope.pod) ["node", "ns", "pod"]
      (by decide) (by decide) (by decide) (by decide) (by decide)
      (fun mm => by simp [mem5Snap, soloPod, emptyNode, mapSummary, mapPod,
        mapNodeAfterSystemContainers, Option.elim]) docA docZ hA hZ
  | ctr =>
    exact C5_mem5_major_aux containerMemoryAvailableBytes containerMemoryUsageBytes
      containerMemoryWorkingSetBytes containerMemoryRSSBytes containerMemoryPageFaults
      containerMemoryMajorPageFaults (mem5Snap Mem5Scope.ctr) ["node", "ns", "pod", "ctr"]
      (by decide) (by decide) (by decide) (by decide) (by decide)
      (fun mm => by simp [mem5Snap, soloCtr, soloPod, emptyNode, mapSummary, mapPod,
        mapPodContainer, mapNodeAfterSystemContainers, Option.elim]) docA docZ hA hZ

/-- Absence preservation across all four Swap group instances. -/
theorem absenceSwap : ∀ (sc : SwapScope) (f : SwapField) (docA docZ : List (String × Nat)),
    f.key ∉ docA.map Prod.fst → jsonLookup docZ f.key = some 0 →
    (SwapField.get f (decodeSwapStats docA) = none ∧
      countObs (swapDesc sc f) (mapSummary (swapSnap sc (decodeSwapStats docA))) = 0) ∧
    (SwapField.get f (decodeSwapStats docZ) = some 0 ∧
      (mapSummary (swapSnap sc (decodeSwapStats docZ))).filter
          (fun m => decide (m.desc = swapDesc sc f)) =
        [⟨swapDesc sc f, ValueType.gauge, 0, swapLabels sc⟩]) := by
  intro sc f docA docZ hA hZ
  cases sc with
  | node =>
    exact C5_swap_aux nodeSwapAvailableBytes nodeSwapUsageBytes (swapSnap SwapScope.node)
      ["node"] (by decide)
      (fun sw => by simp [swapSnap, soloNode, mapSummary, mapNodeAfterSystemContainers,
        Option.elim]) f docA docZ hA hZ
  | sysCont =>
    exact C5_swap_aux nodeSystemContainerSwapAvailableBytes nodeSystemContainerSwapUsageBytes
      (swapSnap SwapScope.sysCont) ["node", "sys"] (by decide)
      (fun sw => by simp [swapSnap, soloSys, mapSummary, mapSystemContainer,
        mapNodeAfterSystemContainers, Option.elim]) f docA docZ hA hZ
  | pod =>
    exact C5_swap_aux podSwapAvailableBytes podSwapUsageBytes (swapSnap SwapScope.pod)
      ["node", "ns", "pod"] (by decide)
      (fun sw => by simp [swapSnap, soloPod, emptyNode, mapSummary, mapPod,
        mapNodeAfterSystemContainers, Option.elim]) f docA docZ hA hZ
  | ctr =>
    exact C5_swap_aux containerSwapAvailableBytes containerSwapUsageBytes
      (swapSnap SwapScope.ctr) ["node", "ns", "pod", "ctr"] (by decide)
      (fun sw => by simp [swapSnap, soloCtr, soloPod, emptyNode, mapSummary, mapPod,
        mapPodContainer, mapNodeAfterSystemContainers, Option.elim]) f docA docZ hA hZ

/-- Absence preservation across both network-interface scopes. -/
theorem absenceIface : ∀ (sc : IfaceScope) (f : IfaceField) (docA docZ : List (String × Nat)),
    f.key ∉ docA.map Prod.fst → jsonLookup docZ f.key = some 0 →
    (IfaceField.get f (decodeInterfaceStats "eth0" docA) = none ∧
      countObs (ifaceDesc sc f)
        (mapSummary (ifaceSnap sc (decodeInterfaceStats "eth0" docA))) = 0) ∧
    (IfaceField.get f (decodeInterfaceStats "eth0" docZ) = some 0 ∧
      (mapSummary (ifaceSnap sc (decodeInterfaceStats "eth0" docZ))).filter
          (fun m => decide (m.desc = ifaceDesc sc f)) =
        [⟨ifaceDesc sc f, ValueType.gauge, 0, ifaceBase sc ++ ["eth0"]⟩]) := by
  intro sc f docA docZ hA hZ
  cases sc with
  | node =>
    exact C5_iface_aux nodeInterfaceRxBytes nodeInterfaceRxErrors nodeInterfaceTxBytes
      nodeInterfaceTxErrors (ifaceSnap IfaceScope.node) ["node"] (by decide)
      (fun i => by simp [ifaceSnap, soloNode, mapSummary, mapNodeAfterSystemContainers,
        Option.elim]) f docA docZ hA hZ
  | pod =>
    exact C5_iface_aux podInterfaceRxBytes podInterfaceRxErrors podInterfaceTxBytes
      podInterfaceTxErrors (ifaceSnap IfaceScope.pod) ["node", "ns", "pod"] (by decide)
      (fun i => by simp [ifaceSnap, soloPod, emptyNode, mapSummary, mapPod,
        mapNodeAfterSystemContainers, Option.elim]) f docA docZ hA hZ

/-- Absence preservation for the two int64 Rlimit leaves. -/
theorem absenceRlimit : ∀ (f : RlimitField) (docA docZ : List (String × Int)),
    f.key ∉ docA.map Prod.fst → jsonLookup docZ f.key = some 0 →
    (RlimitField.get f (decodeRlimitStats docA) = none ∧
      countObs (RlimitField.desc f) (mapSummary (rlimitSnap (decodeRlimitStats docA))) = 0) ∧
    (RlimitField.get f (decodeRlimitStats docZ) = some 0 ∧
      (mapSummary (rlimitSnap (decodeRlimitStats docZ))).filter
          (fun m => decide (m.desc = RlimitField.desc f)) =
        [⟨RlimitField.desc f, ValueType.gauge, 0, ["node"]⟩]) := by
  intro f docA docZ hA hZ
  have hred : ∀ r, mapSummary (rlimitSnap r) = mapRlimit r ["node"] := fun r => by
    simp [rlimitSnap, soloNode, mapSummary, mapNodeAfterSystemContainers, Option.elim]
  have hgA : RlimitField.get f (decodeRlimitStats docA) = none :=
    (get_decodeRlimitStats f docA).trans (jsonLookup_eq_none hA)
  have hgZ : RlimitField.get f (decodeRlimitStats docZ) = some 0 :=
    (get_decodeRlimitStats f docZ).trans hZ
  refine ⟨⟨hgA, ?_⟩, ⟨hgZ, ?_⟩⟩
  · rw [countObs, hred, filter_mapRlimit f, hgA]
    rfl
  · rw [hred, filter_mapRlimit f, hgZ]
    simp [show f64roundInt 0 = 0 from by decide]

/-- Absence preservation for the pod process-count leaf. -/
theorem absenceProcess : ∀ (docA docZ : List (String × Nat)),
    "process_count" ∉ docA.map Prod.fst → jsonLookup docZ "process_count" = some 0 →
    ((decodeProcessStats docA).processCount = none ∧
      countObs podProcessCount (mapSummary (processSnap (decodeProcessStats docA))) = 0) ∧
    ((decodeProcessStats docZ).processCount = some 0 ∧
      (mapSummary (processSnap (decodeProcessStats docZ))).filter
          (fun m => decide (m.desc = podProcessCount)) =
        [⟨podProcessCount, ValueType.gauge, 0, ["node", "ns", "pod"]⟩]) := by
  intro docA docZ hA hZ
  have hred : ∀ p, mapSummary (processSnap p) =
      pushMetrics podProcessCount p.processCount ["node", "ns", "pod"] := fun p => by
    simp [processSnap, soloPod, emptyNode, mapSummary, mapPod,
      mapNodeAfterSystemContainers, Option.elim]
  refine ⟨⟨jsonLookup_eq_none hA, ?_⟩, ⟨hZ, ?_⟩⟩
  · rw [countObs, hred,
      (show (decodeProcessStats docA).processCount = none from jsonLookup_eq_none hA)]
    rfl
  · rw [hred, (show (decodeProcessStats docZ).processCount = some 0 from hZ),
      filter_pushMetrics]
    simp [pushMetrics, f64round_of_le (Nat.zero_le (2 ^ 53))]

end KubeletSummary

namespace KubeletSummary

/-- C5: for every optional numeric leaf of the data model -- the five
leaves of each of the nine FsStats groups, the two CPU leaves, the six
Memory leaves, the two Swap leaves, the four interface leaves at node
and pod scope, the two int64 Rlimit leaves, and the pod process
count -- an omitted member decodes to an absent optional and the
Mapper emits no observation for it, and an explicitly zero member
decodes to a present zero and the Mapper emits exactly one observation
with value 0; EXCEPT the MajorPageFaults leaf at node, pod, and
pod-container scope, where decode still preserves absence and the
explicit zero but the Mapper emits no observation in either case: the
zero-valued leaf of the claim yields zero observations, not one, as
the final conjunct evaluates at the concrete failing input. -/
theorem C5_absence_preservation :
    (∀ (sc : FsScope) (f : FsField) (docA docZ : List (String × Nat)),
      f.key ∉ docA.map Prod.fst → jsonLookup docZ f.key = some 0 →
      (FsField.get f (decodeFsStats docA) = none ∧
        countObs (fsDesc sc f) (mapSummary (fsSnap sc (decodeFsStats docA))) = 0) ∧
      (FsField.get f (decodeFsStats docZ) = some 0 ∧
        (mapSummary (fsSnap sc (decodeFsStats docZ))).filter
            (fun m => decide (m.desc = fsDesc sc f)) =
          [⟨fsDesc sc f, ValueType.gauge, 0, fsLabels sc⟩])) ∧
    (∀ (sc : CpuScope) (f : CpuField) (docA docZ : List (String × Nat)),
      f.key ∉ docA.map Prod.fst → jsonLookup docZ f.key = some 0 →
      (CpuField.get f (decodeCPUStats docA) = none ∧
        countObs (cpuDesc sc f) (mapSummary (cpuSnap sc (decodeCPUStats docA))) = 0) ∧
      (CpuField.get f (decodeCPUStats docZ) = some 0 ∧
        (mapSummary (cpuSnap sc (decodeCPUStats docZ))).filter
            (fun m => decide (m.desc = cpuDesc sc f)) =
          [⟨cpuDesc sc f, ValueType.gauge, 0, cpuLabels sc⟩])) ∧
    (∀ (f : MemField) (docA docZ : List (String × Nat)),
      f.key ∉ docA.map Prod.fst → jsonLookup docZ f.key = some 0 →
      (MemField.get f (decodeMemoryStats docA) = none ∧
        countObs (sysMemDesc f) (mapSummary (sysMemSnap (decodeMemoryStats docA))) = 0) ∧
      (MemField.get f (decodeMemoryStats docZ) = some 0 ∧
        (mapSummary (sysMemSnap (decodeMemoryStats docZ))).filter
            (fun m => decide (m.desc = sysMemDesc f)) =
          [⟨sysMemDesc f, ValueType.gauge, 0, ["node", "sys"]⟩])) ∧
    (∀ (sc : Mem5Scope) (f : MemField), f ≠ MemField.majorPageFaults →
      ∀ (docA docZ : List (String × Nat)),
      f.key ∉ docA.map Prod.fst → jsonLookup docZ f.key = some 0 →
      (MemField.get f (decodeMemoryStats docA) = none ∧
        countObs (mem5Desc sc f) (mapSummary (mem5Snap sc (decodeMemoryStats docA))) = 0) ∧
      (MemField.get f (decodeMemoryStats docZ) = some 0 ∧
        (mapSummary (mem5Snap sc (decodeMemoryStats docZ))).filter
            (fun m => decide (m.desc = mem5Desc sc f)) =
          [⟨mem5Desc sc f, ValueType.gauge, 0, mem5Labels sc⟩])) ∧
    (∀ (sc : Mem5Scope) (docA docZ : List (String × Nat)),
      "majorPageFaults" ∉ docA.map Prod.fst → jsonLookup docZ "majorPageFaults" = some 0 →
      ((decodeMemoryStats docA).majorPageFaults = none ∧
        countObs (mem5Desc sc MemField.majorPageFaults)
          (mapSummary (mem5Snap sc (decodeMemoryStats docA))) = 0) ∧
      ((decodeMemoryStats docZ).majorPageFaults = some 0 ∧
        countObs (mem5Desc sc MemField.majorPageFaults)
          (mapSummary (mem5Snap sc (decodeMemoryStats docZ))) = 0)) ∧
    (∀ (sc : SwapScope) (f : SwapField) (docA docZ : List (String × Nat)),
      f.key ∉ docA.map Prod.fst → jsonLookup docZ f.key = some 0 →
      (SwapField.get f (decodeSwapStats docA) = none ∧
        countObs (swapDesc sc f) (mapSummary (swapSnap sc (decodeSwapStats docA))) = 0) ∧
      (SwapField.get f (decodeSwapStats docZ) = some 0 ∧
        (mapSummary (swapSnap sc (decodeSwapStats docZ))).filter
            (fun m => decide (m.desc = swapDesc sc f)) =
          [⟨swapDesc sc f, ValueType.gauge, 0, swapLabels sc⟩])) ∧
    (∀ (sc : IfaceScope) (f : IfaceField) (docA docZ : List (String × Nat)),
      f.key ∉ docA.map Prod.fst → jsonLookup docZ f.key = some 0 →
      (IfaceField.get f (decodeInterfaceStats "eth0" docA) = none ∧
        countObs (ifaceDesc sc f)
          (mapSummary (ifaceSnap sc (decodeInterfaceStats "eth0" docA))) = 0) ∧
      (IfaceField.get f (decodeInterfaceStats "eth0" docZ) = some 0 ∧
        (mapSummary (ifaceSnap sc (decodeInterfaceStats "eth0" docZ))).filter
            (fun m => decide (m.desc = ifaceDesc sc f)) =
          [⟨ifaceDesc sc f, ValueType.gauge, 0, ifaceBase sc ++ ["eth0"]⟩])) ∧
    (∀ (f : RlimitField) (docA docZ : List (String × Int)),
      f.key ∉ docA.map Prod.fst → jsonLookup docZ f.key = some 0 →
      (RlimitField.get f (decodeRlimitStats docA) = none ∧
        countObs (RlimitField.desc f)
          (mapSummary (rlimitSnap (decodeRlimitStats docA))) = 0) ∧
      (RlimitField.get f (decodeRlimitStats docZ) = some 0 ∧
        (mapSummary (rlimitSnap (decodeRlimitStats docZ))).filter
            (fun m => decide (m.desc = RlimitField.desc f)) =
          [⟨RlimitField.desc f, ValueType.gauge, 0, ["node"]⟩])) ∧
    (∀ (docA docZ : List (String × Nat)),
      "process_count" ∉ docA.map Prod.fst → jsonLookup docZ "process_count" = some 0 →
      ((decodeProcessStats docA).processCount = none ∧
        countObs podProcessCount (mapSummary (processSnap (decodeProcessStats docA))) = 0) ∧
      ((decodeProcessStats docZ).processCount = some 0 ∧
        (mapSummary (processSnap (decodeProcessStats docZ))).filter
            (fun m => decide (m.desc = podProcessCount)) =
          [⟨podProcessCount, ValueType.gauge, 0, ["node", "ns", "pod"]⟩])) ∧
    (mem5Desc Mem5Scope.node MemField.majorPageFaults = nodeMemoryMajorPageFaults ∧
      nodeMemoryMajorPageFaults ∈ describeList ∧
      (decodeMemoryStats [("majorPageFaults", 0)]).majorPageFaults = some 0 ∧
      mapSummary (mem5Snap Mem5Scope.node (decodeMemoryStats [("majorPageFaults", 0)])) = []) :=
  ⟨absenceFs, absenceCpu, absenceSysMem, absenceMem, absenceMemMajor, absenceSwap,
   absenceIface, absenceRlimit, absenceProcess, rfl, by decide, by decide, by decide⟩

/-- Witness for C5: the usedBytes leaf of a pod-container Rootfs under
an absent and an explicitly zero document, and the node MajorPageFaults
leaf under an absent and an explicitly zero document. -/
theorem C5_absence_preservation_witness :
    ((FsField.get FsField.usedBytes (decodeFsStats [("capacityBytes", 7)]) = none ∧
      countObs (fsDesc FsScope.ctrRootfs FsField.usedBytes)
        (mapSummary (fsSnap FsScope.ctrRootfs (decodeFsStats [("capacityBytes", 7)]))) = 0) ∧
     (FsField.get FsField.usedBytes (decodeFsStats [("usedBytes", 0)]) = some 0 ∧
      (mapSummary (fsSnap FsScope.ctrRootfs (decodeFsStats [("usedBytes", 0)]))).filter
          (fun m => decide (m.desc = fsDesc FsScope.ctrRootfs FsField.usedBytes)) =
        [⟨fsDesc FsScope.ctrRootfs FsField.usedBytes, ValueType.gauge, 0,
          fsLabels FsScope.ctrRootfs⟩])) ∧
    (((decodeMemoryStats [("rssBytes", 4)]).majorPageFaults = none ∧
      countObs (mem5Desc Mem5Scope.node MemField.majorPageFaults)
        (mapSummary (mem5Snap Mem5Scope.node (decodeMemoryStats [("rssBytes", 4)]))) = 0) ∧
     ((decodeMemoryStats [("majorPageFaults", 0)]).majorPageFaults = some 0 ∧
      countObs (mem5Desc Mem5Scope.node MemField.majorPageFaults)
        (mapSummary
          (mem5Snap Mem5Scope.node (decodeMemoryStats [("majorPageFaults", 0)]))) = 0)) :=
  ⟨C5_absence_preservation.1 FsScope.ctrRootfs FsField.usedBytes [("capacityBytes", 7)]
     [("usedBytes", 0)] (by decide) (by decide),
   C5_absence_preservation.2.2.2.2.1 Mem5Scope.node [("rssBytes", 4)]
     [("majorPageFaults", 0)] (by decide) (by decide)⟩

end KubeletSummary
